import Mathlib

/-!
Shallow embedding of `backend/build/stage/src/cpp/tracer.cpp`, a runtime
trace recorder: notification handlers turn instrumentation callbacks into an
append-only event log plus latest-value registries, guarded by a
thread-local reentrancy flag and a process-wide disabled flag.

Modelling conventions:
* Raw addresses (`void*`) are `Nat` (`0` plays no special role except where
  the source checks a pointer for null, which is modelled explicitly).
* C `int` / `long long` are `Int` (no claim involves machine overflow).
* `std::map` / `std::set` are association lists / lists with
  insert-or-replace semantics; lookup order is irrelevant to the claims.
* The output sink `FILE* g_trace_file` is modelled by the Boolean
  `traceFileOpen`; the bytes written to the file are outside the model, but
  every emitted record is kept structurally in `events`.
* `dladdr`/`demangle` (external symbol resolution) is an input of the
  `__cyg_profile_func_enter/exit` handlers: `Option (String × Option String)`
  is the resolved (demangled) symbol name together with `dli_fname`, or
  `none` when `dladdr` fails or `dli_sname` is null.
* Timestamps come from an external monotonic clock and are advisory only
  (the spec orders events solely by id), so they are omitted from `Event`.
* The model is single-threaded: `g_inside_tracer` (`__thread`) is one
  Boolean field.
-/

/-- `strstr(hay, needle) != nullptr` on character lists. -/
def listPrefixOf : List Char → List Char → Bool
  | [], _ => true
  | _ :: _, [] => false
  | a :: as, b :: bs => a == b && listPrefixOf as bs

/-- Substring search over character lists. -/
def strstrL (nee : List Char) : List Char → Bool
  | [] => listPrefixOf nee []
  | c :: hay => listPrefixOf nee (c :: hay) || strstrL nee hay

/-- `strstr(hay, needle) != nullptr` on strings. -/
def strContains (hay nee : String) : Bool :=
  strstrL nee.toList hay.toList

/-- `json_safe_path`: replace every backslash by a forward slash. -/
def json_safe_path (raw : String) : String :=
  String.mk (raw.toList.map (fun c => if c = '\\' then '/' else c))

/-- `normalize_function_name`: strip carriage returns and newlines. -/
def normalize_function_name (name : String) : String :=
  String.mk (raw_filter name.toList)
where
  raw_filter (l : List Char) : List Char :=
    l.filter (fun c => !(c == '\x0d') && !(c == '\x0a'))

/-- The escaping loop of `trace_var_str_loc`: a backslash is put before every
quote or backslash among the first 250 characters of the value. -/
def escape_var_str (value : String) : String :=
  String.mk ((value.toList.take 250).foldr
    (fun c acc => if c = '"' || c = '\\' then '\\' :: c :: acc else c :: acc) [])

/-- `struct PointerInfo`: `heapAddress` is `none` for a null pointer. -/
structure PointerInfo where
  pointerName : String
  aliasedAddress : Nat
  isHeap : Bool
  heapAddress : Option Nat
deriving DecidableEq, Repr

/-- `struct ArrayInfo`. -/
structure ArrayInfo where
  name : String
  baseType : String
  address : Nat
  dim1 : Int
  dim2 : Int
  dim3 : Int
  isStack : Bool
deriving DecidableEq, Repr

/-- `struct ArrayElementKey` (composite key for array element values). -/
structure ArrayElementKey where
  arrayName : String
  idx1 : Int
  idx2 : Int
  idx3 : Int
deriving DecidableEq, Repr

/-- `struct CallFrame`. -/
structure CallFrame where
  functionName : String
  pointerAliases : List (String × PointerInfo)
  activeLoops : List Int
  loopIterations : List (Int × Int)
deriving DecidableEq, Repr

/-- The kind-specific `extra` payload each handler formats with `snprintf`.
One constructor per distinct format string in the source; the fields are the
values interpolated into it. -/
inductive Payload where
  | noneP
  | conditionEval (conditionId : Int) (expression : String) (result : Int)
      (file : String) (line : Int)
  | branchTaken (conditionId : Int) (branchType file : String) (line : Int)
  | arrayCreate (name baseType : String) (dim1 dim2 dim3 : Int)
      (isStack : Bool) (file : String) (line : Int)
  | arrayInitChar (name : String) (index value : Int) (file : String) (line : Int)
  | arrayInit1 (name : String) (index value : Int) (file : String) (line : Int)
  | arrayIndexAssign (name : String) (idx1 idx2 idx3 value : Int)
      (file : String) (line : Int)
  | pointerAlias (name aliasOf : String) (aliasedAddress : Nat)
      (decayedFromArray : Bool) (file : String) (line : Int)
  | pointerDerefWrite (pointerName : String) (value : Int) (targetName : String)
      (isHeap : Bool) (file : String) (line : Int)
  | heapWrite (address : Option Nat) (value : Int) (file : String) (line : Int)
  | declareP (name varType : String) (address : Nat) (file : String) (line : Int)
  | assignP (name : String) (value : Int) (file : String) (line : Int)
  | controlFlow (controlType file : String) (line : Int)
  | loopStart (loopId : Int) (loopType file : String) (line : Int)
  | loopBodyStart (loopId iteration : Int) (file : String) (line : Int)
  | loopIterationEnd (loopId iteration : Int) (file : String) (line : Int)
  | loopEnd (loopId : Int) (file : String) (line : Int)
  | loopCondition (loopId result : Int) (file : String) (line : Int)
  | returnP (value : Int) (returnType destinationSymbol file : String) (line : Int)
  | blockP (blockDepth : Int) (file : String) (line : Int)
  | varInt (name : String) (value : Int) (file : String) (line : Int)
  | varLong (name : String) (value : Int) (file : String) (line : Int)
  | varDouble (name valueText file : String) (line : Int)
  | varPtr (name : String) (value : Nat) (file : String) (line : Int)
  | varStr (name escapedValue file : String) (line : Int)
  | callerP (caller : Nat)
  | heapAlloc (size : Nat)
deriving DecidableEq, Repr

/-- One record of the append-only event log (`write_json_event` output). -/
structure Event where
  id : Nat
  etype : String
  addr : Option Nat
  func : String
  depth : Int
  extra : Payload
deriving DecidableEq, Repr

/-- The process-wide mutable state of the tracer: the file-scope globals of
`tracer.cpp` plus the construct-on-first-use registries. -/
structure TracerState where
  traceFileOpen : Bool
  depth : Int
  eventCounter : Nat
  insideTracer : Bool
  tracerDisabled : Bool
  variableValues : List (String × Int)
  arrayRegistry : List (Nat × ArrayInfo)
  addressToName : List (Nat × String)
  arrayElementValues : List (ArrayElementKey × Int)
  trackedFunctions : List String
  currentFunction : String
  pointerRegistry : List (String × PointerInfo)
  callStack : List CallFrame
  events : List Event
deriving DecidableEq, Repr

/-- The state produced by the C++ static initializers: no sink, depth `0`,
counter `0`, both flags clear (`g_tracer_disabled = false`), current
function `"main"`, all registries empty. -/
def initState : TracerState where
  traceFileOpen := false
  depth := 0
  eventCounter := 0
  insideTracer := false
  tracerDisabled := false
  variableValues := []
  arrayRegistry := []
  addressToName := []
  arrayElementValues := []
  trackedFunctions := []
  currentFunction := "main"
  pointerRegistry := []
  callStack := []
  events := []

/-- `std::map` lookup on an association list. -/
def assocFind {α β : Type} [DecidableEq α] (m : List (α × β)) (k : α) : Option β :=
  match m with
  | [] => none
  | (k', v) :: rest => if k' = k then some v else assocFind rest k

/-- `std::map` insert-or-replace (`m[k] = v`) on an association list. -/
def assocSet {α β : Type} [DecidableEq α] (m : List (α × β)) (k : α) (v : β) :
    List (α × β) :=
  match m with
  | [] => [(k, v)]
  | (k', v') :: rest =>
    if k' = k then (k, v) :: rest else (k', v') :: assocSet rest k v

/-- `std::map::erase(k)` on an association list. -/
def assocErase {α β : Type} [DecidableEq α] (m : List (α × β)) (k : α) :
    List (α × β) :=
  match m with
  | [] => []
  | (k', v') :: rest =>
    if k' = k then rest else (k', v') :: assocErase rest k

/-- `std::set::insert` on a duplicate-free list. -/
def setInsert (s : List String) (x : String) : List String :=
  if x ∈ s then s else s ++ [x]

/-- `write_json_event`: if the sink is absent or the depth counter is at or
beyond the hard ceiling, silently no-op; otherwise append one record carrying
the next event id and bump the counter.  (The `TraceGuard` mutex and the
timestamp only affect the file bytes / wall clock, not the modelled state.) -/
def write_json_event (s : TracerState) (type_ : String) (addr : Option Nat)
    (func_name : String) (depth : Int) (extra : Payload) : TracerState :=
  if !s.traceFileOpen || s.depth ≥ 2048 then s
  else
    { s with
      events := s.events ++
        [{ id := s.eventCounter, etype := type_, addr := addr,
           func := func_name, depth := depth, extra := extra }]
      eventCounter := s.eventCounter + 1 }

/-- `TRACER_GUARD_ENTER` / `TRACER_GUARD_EXIT` around a handler body: deny
(and leave the state untouched) when the disabled flag or the thread-local
flag is set; otherwise run the body with the thread-local flag set and clear
it on the way out. -/
def runGuarded (s : TracerState) (body : TracerState → TracerState) : TracerState :=
  if s.tracerDisabled then s
  else if s.insideTracer then s
  else { body { s with insideTracer := true } with insideTracer := false }

/-- The `TRACER_GUARD_ENTER(); if (!g_trace_file) { TRACER_GUARD_EXIT(); return; }`
skeleton shared by almost every `__trace_*_loc` handler. -/
def guardedFileOp (s : TracerState) (body : TracerState → TracerState) : TracerState :=
  runGuarded s (fun s0 => if s0.traceFileOpen then body s0 else s0)

/-- `findPointerInfo`: search the call stack innermost-frame first, then the
process-wide pointer registry. -/
def findPointerInfo (s : TracerState) (ptrName : String) : Option PointerInfo :=
  match s.callStack.findSome? (fun fr => assocFind fr.pointerAliases ptrName) with
  | some p => some p
  | none => assocFind s.pointerRegistry ptrName

/-- `__trace_output_flush_loc`: guard, flush the streams (no effect on the
modelled state), guard exit. -/
def __trace_output_flush_loc (s : TracerState) (_file : String) (_line : Int) :
    TracerState :=
  runGuarded s (fun s0 => s0)

/-- `__trace_condition_eval_loc`. -/
def __trace_condition_eval_loc (s : TracerState) (conditionId : Int)
    (expression : String) (result : Int) (file : String) (line : Int) : TracerState :=
  guardedFileOp s (fun s0 =>
    write_json_event s0 "condition_eval" none s0.currentFunction s0.depth
      (Payload.conditionEval conditionId expression result (json_safe_path file) line))

/-- `__trace_branch_taken_loc`. -/
def __trace_branch_taken_loc (s : TracerState) (conditionId : Int)
    (branchType : String) (file : String) (line : Int) : TracerState :=
  guardedFileOp s (fun s0 =>
    write_json_event s0 "branch_taken" none s0.currentFunction s0.depth
      (Payload.branchTaken conditionId branchType (json_safe_path file) line))

/-- `__trace_array_create_loc`: record the address→name mapping, emit the
`array_create` event, then store the `ArrayInfo`. -/
def __trace_array_create_loc (s : TracerState) (name baseType : String)
    (address : Nat) (dim1 dim2 dim3 : Int) (isStack : Bool) (file : String)
    (line : Int) : TracerState :=
  guardedFileOp s (fun s0 =>
    let s1 := { s0 with addressToName := assocSet s0.addressToName address name }
    let s2 := write_json_event s1 "array_create" (some address)
      s1.currentFunction s1.depth
      (Payload.arrayCreate name baseType dim1 dim2 dim3 isStack (json_safe_path file) line)
    { s2 with arrayRegistry := assocSet s2.arrayRegistry address
                  (ArrayInfo.mk name baseType address dim1 dim2 dim3 isStack) })

/-- One iteration of the `__trace_array_init_string_loc` loop: emit an
`array_index_assign` event for character index `i` and store the element. -/
def arrayInitStringStep (name f : String) (line : Int) (s : TracerState)
    (i : Nat) (c : Char) : TracerState :=
  let s1 := write_json_event s "array_index_assign" none s.currentFunction s.depth
    (Payload.arrayInitChar name (Int.ofNat i) (Int.ofNat c.toNat) f line)
  { s1 with arrayElementValues := assocSet s1.arrayElementValues
              (ArrayElementKey.mk name (Int.ofNat i) (-1) (-1)) (Int.ofNat c.toNat) }

/-- `__trace_array_init_string_loc`: one event and one element store per
character of the literal, including the trailing NUL. -/
def __trace_array_init_string_loc (s : TracerState) (name str_literal : String)
    (file : String) (line : Int) : TracerState :=
  guardedFileOp s (fun s0 =>
    let f := json_safe_path file
    (str_literal.toList ++ ['\x00']).enum.foldl
      (fun acc p => arrayInitStringStep name f line acc p.1 p.2) s0)

/-- One iteration of the `__trace_array_init_loc` loop. -/
def arrayInitStep (name f : String) (line : Int) (values : List Int)
    (s : TracerState) (i : Nat) : TracerState :=
  let v := values.getD i 0
  let s1 := write_json_event s "array_index_assign" none s.currentFunction s.depth
    (Payload.arrayInit1 name (Int.ofNat i) v f line)
  { s1 with arrayElementValues := assocSet s1.arrayElementValues
              (ArrayElementKey.mk name (Int.ofNat i) (-1) (-1)) v }

/-- `__trace_array_init_loc`: `count` iterations over the initializer values
(the C `int*` buffer is modelled by the list of values it points to). -/
def __trace_array_init_loc (s : TracerState) (name : String) (values : List Int)
    (count : Nat) (file : String) (line : Int) : TracerState :=
  guardedFileOp s (fun s0 =>
    (List.range count).foldl (arrayInitStep name (json_safe_path file) line values) s0)

/-- `__trace_array_index_assign_loc`: store the element value, then emit the
`array_index_assign` event. -/
def __trace_array_index_assign_loc (s : TracerState) (name : String)
    (idx1 idx2 idx3 value : Int) (file : String) (line : Int) : TracerState :=
  guardedFileOp s (fun s0 =>
    let s1 := { s0 with arrayElementValues :=
                          assocSet s0.arrayElementValues
                            (ArrayElementKey.mk name idx1 idx2 idx3) value }
    write_json_event s1 "array_index_assign" none s1.currentFunction s1.depth
      (Payload.arrayIndexAssign name idx1 idx2 idx3 value (json_safe_path file) line))

/-- `__trace_pointer_alias_loc`: emit the `pointer_alias` event, then store
the `PointerInfo` in the innermost frame when the call stack is non-empty,
else in the process-wide registry. -/
def __trace_pointer_alias_loc (s : TracerState) (name : String)
    (aliasedAddress : Nat) (decayedFromArray : Bool) (file : String)
    (line : Int) : TracerState :=
  guardedFileOp s (fun s0 =>
    let aliasOfName := (assocFind s0.addressToName aliasedAddress).getD "unknown"
    let s1 := write_json_event s0 "pointer_alias" (some aliasedAddress)
      s0.currentFunction s0.depth
      (Payload.pointerAlias name aliasOfName aliasedAddress decayedFromArray
        (json_safe_path file) line)
    let pinfo : PointerInfo :=
      { pointerName := name, aliasedAddress := aliasedAddress,
        isHeap := false, heapAddress := none }
    match s1.callStack with
    | fr :: rest =>
      { s1 with callStack :=
          { fr with pointerAliases := assocSet fr.pointerAliases name pinfo } :: rest }
    | [] => { s1 with pointerRegistry := assocSet s1.pointerRegistry name pinfo })

/-- `__trace_pointer_deref_write_loc`: resolve the pointer through
`findPointerInfo`, emit a `pointer_deref_write` event at the resolved target
address, and a second `heap_write` event when the pointer is a heap one. -/
def __trace_pointer_deref_write_loc (s : TracerState) (ptrName : String)
    (value : Int) (file : String) (line : Int) : TracerState :=
  guardedFileOp s (fun s0 =>
    let f := json_safe_path file
    let pinfo := findPointerInfo s0 ptrName
    let isHeap := match pinfo with | some p => p.isHeap | none => false
    let targetAddress : Option Nat :=
      match pinfo with | some p => some p.aliasedAddress | none => none
    let targetName :=
      match pinfo with
      | some p => (assocFind s0.addressToName p.aliasedAddress).getD "unknown"
      | none => "unknown"
    let s1 := write_json_event s0 "pointer_deref_write" targetAddress
      s0.currentFunction s0.depth
      (Payload.pointerDerefWrite ptrName value targetName isHeap f line)
    if isHeap then
      write_json_event s1 "heap_write" targetAddress s1.currentFunction s1.depth
        (Payload.heapWrite targetAddress value f line)
    else s1)

/-- `__trace_declare_loc`: record address→name, emit the `declare` event
(whose `func` field is the declared name, as in the source). -/
def __trace_declare_loc (s : TracerState) (name ty : String) (address : Nat)
    (file : String) (line : Int) : TracerState :=
  guardedFileOp s (fun s0 =>
    let s1 := { s0 with addressToName := assocSet s0.addressToName address name }
    write_json_event s1 "declare" (some address) name s1.depth
      (Payload.declareP name ty address (json_safe_path file) line))

/-- `__trace_assign_loc`: store the latest value, emit the `assign` event. -/
def __trace_assign_loc (s : TracerState) (name : String) (value : Int)
    (file : String) (line : Int) : TracerState :=
  guardedFileOp s (fun s0 =>
    let s1 := { s0 with variableValues := assocSet s0.variableValues name value }
    write_json_event s1 "assign" none name s1.depth
      (Payload.assignP name value (json_safe_path file) line))

/-- `__trace_pointer_heap_init_loc`: build a heap `PointerInfo`, store it in
the innermost frame when the call stack is non-empty, and always in the
process-wide registry; no event is emitted. -/
def __trace_pointer_heap_init_loc (s : TracerState) (ptrName : String)
    (heapAddr : Nat) (_file : String) (_line : Int) : TracerState :=
  guardedFileOp s (fun s0 =>
    let pinfo : PointerInfo :=
      { pointerName := ptrName, aliasedAddress := heapAddr,
        isHeap := true, heapAddress := some heapAddr }
    let s1 :=
      match s0.callStack with
      | fr :: rest =>
        { s0 with callStack :=
            { fr with pointerAliases := assocSet fr.pointerAliases ptrName pinfo } :: rest }
      | [] => s0
    { s1 with pointerRegistry := assocSet s1.pointerRegistry ptrName pinfo })

/-- `__trace_control_flow_loc`. -/
def __trace_control_flow_loc (s : TracerState) (controlType : String)
    (file : String) (line : Int) : TracerState :=
  guardedFileOp s (fun s0 =>
    write_json_event s0 "control_flow" none s0.currentFunction s0.depth
      (Payload.controlFlow controlType (json_safe_path file) line))

/-- `__trace_loop_start_loc`: push the loop id onto the top frame's
`activeLoops`, reset its iteration counter, emit the `loop_start` event. -/
def __trace_loop_start_loc (s : TracerState) (loopId : Int) (loopType : String)
    (file : String) (line : Int) : TracerState :=
  guardedFileOp s (fun s0 =>
    let s1 :=
      match s0.callStack with
      | fr :: rest =>
        { s0 with callStack :=
            { fr with activeLoops := fr.activeLoops ++ [loopId],
                      loopIterations := assocSet fr.loopIterations loopId 0 } :: rest }
      | [] => s0
    write_json_event s1 "loop_start" none s1.currentFunction s1.depth
      (Payload.loopStart loopId loopType (json_safe_path file) line))

/-- `__trace_loop_body_start_loc`: pre-increment the iteration counter of the
loop in the top frame (`++loopIterations[loopId]`, default-inserting zero),
emit the `loop_body_start` event carrying the new iteration number. -/
def __trace_loop_body_start_loc (s : TracerState) (loopId : Int) (file : String)
    (line : Int) : TracerState :=
  guardedFileOp s (fun s0 =>
    let p :=
      match s0.callStack with
      | fr :: rest =>
        let v := (assocFind fr.loopIterations loopId).getD 0 + 1
        (v, { s0 with callStack :=
            { fr with loopIterations := assocSet fr.loopIterations loopId v } :: rest })
      | [] => ((0 : Int), s0)
    write_json_event p.2 "loop_body_start" none p.2.currentFunction p.2.depth
      (Payload.loopBodyStart loopId p.1 (json_safe_path file) line))

/-- `__trace_loop_iteration_end_loc`: read the iteration counter
(`loopIterations[loopId]`, default-inserting zero as `operator[]` does),
emit the `loop_iteration_end` event. -/
def __trace_loop_iteration_end_loc (s : TracerState) (loopId : Int)
    (file : String) (line : Int) : TracerState :=
  guardedFileOp s (fun s0 =>
    let p :=
      match s0.callStack with
      | fr :: rest =>
        let v := (assocFind fr.loopIterations loopId).getD 0
        (v, { s0 with callStack :=
            { fr with loopIterations := assocSet fr.loopIterations loopId v } :: rest })
      | [] => ((0 : Int), s0)
    write_json_event p.2 "loop_iteration_end" none p.2.currentFunction p.2.depth
      (Payload.loopIterationEnd loopId p.1 (json_safe_path file) line))

/-- `__trace_loop_end_loc`: erase the first matching id from the top frame's
`activeLoops` (that is how `std::find` + `erase` behaves), drop its iteration
counter, and emit the `loop_end` event unconditionally. -/
def __trace_loop_end_loc (s : TracerState) (loopId : Int) (file : String)
    (line : Int) : TracerState :=
  guardedFileOp s (fun s0 =>
    let s1 :=
      match s0.callStack with
      | fr :: rest =>
        { s0 with callStack :=
            { fr with activeLoops := fr.activeLoops.erase loopId,
                      loopIterations := assocErase fr.loopIterations loopId } :: rest }
      | [] => s0
    write_json_event s1 "loop_end" none s1.currentFunction s1.depth
      (Payload.loopEnd loopId (json_safe_path file) line))

/-- `__trace_loop_condition_loc`. -/
def __trace_loop_condition_loc (s : TracerState) (loopId : Int) (result : Int)
    (file : String) (line : Int) : TracerState :=
  guardedFileOp s (fun s0 =>
    write_json_event s0 "loop_condition" none s0.currentFunction s0.depth
      (Payload.loopCondition loopId result (json_safe_path file) line))

/-- `__trace_return_loc` (the two `snprintf` branches only differ in whether
the `destinationSymbol` field is present; the payload keeps it verbatim). -/
def __trace_return_loc (s : TracerState) (value : Int)
    (returnType destinationSymbol : String) (file : String) (line : Int) :
    TracerState :=
  guardedFileOp s (fun s0 =>
    write_json_event s0 "return" none s0.currentFunction s0.depth
      (Payload.returnP value returnType destinationSymbol (json_safe_path file) line))

/-- `__trace_block_enter_loc`. -/
def __trace_block_enter_loc (s : TracerState) (blockDepth : Int) (file : String)
    (line : Int) : TracerState :=
  guardedFileOp s (fun s0 =>
    write_json_event s0 "block_enter" none s0.currentFunction s0.depth
      (Payload.blockP blockDepth (json_safe_path file) line))

/-- `__trace_block_exit_loc`. -/
def __trace_block_exit_loc (s : TracerState) (blockDepth : Int) (file : String)
    (line : Int) : TracerState :=
  guardedFileOp s (fun s0 =>
    write_json_event s0 "block_exit" none s0.currentFunction s0.depth
      (Payload.blockP blockDepth (json_safe_path file) line))

/-- `trace_var_int_loc`. -/
def trace_var_int_loc (s : TracerState) (name : String) (value : Int)
    (file : String) (line : Int) : TracerState :=
  guardedFileOp s (fun s0 =>
    write_json_event s0 "var" none name s0.depth
      (Payload.varInt name value (json_safe_path file) line))

/-- `trace_var_long_loc`. -/
def trace_var_long_loc (s : TracerState) (name : String) (value : Int)
    (file : String) (line : Int) : TracerState :=
  guardedFileOp s (fun s0 =>
    write_json_event s0 "var" none name s0.depth
      (Payload.varLong name value (json_safe_path file) line))

/-- `trace_var_double_loc` (the `%f` rendering of the double is external to
the model and arrives pre-formatted). -/
def trace_var_double_loc (s : TracerState) (name valueText : String)
    (file : String) (line : Int) : TracerState :=
  guardedFileOp s (fun s0 =>
    write_json_event s0 "var" none name s0.depth
      (Payload.varDouble name valueText (json_safe_path file) line))

/-- `trace_var_ptr_loc`. -/
def trace_var_ptr_loc (s : TracerState) (name : String) (value : Nat)
    (file : String) (line : Int) : TracerState :=
  guardedFileOp s (fun s0 =>
    write_json_event s0 "var" none name s0.depth
      (Payload.varPtr name value (json_safe_path file) line))

/-- `trace_var_str_loc`: the one handler with no `TRACER_GUARD_ENTER` /
`TRACER_GUARD_EXIT` pair — it only checks the sink, escapes the value, and
emits the event. -/
def trace_var_str_loc (s : TracerState) (name value : String) (file : String)
    (line : Int) : TracerState :=
  if !s.traceFileOpen then s
  else
    write_json_event s "var" none name s.depth
      (Payload.varStr name (escape_var_str value) (json_safe_path file) line)

/-- `trace_var_int` wrapper. -/
def trace_var_int (s : TracerState) (name : String) (value : Int) : TracerState :=
  trace_var_int_loc s name value "unknown" 0

/-- `trace_var_long` wrapper. -/
def trace_var_long (s : TracerState) (name : String) (value : Int) : TracerState :=
  trace_var_long_loc s name value "unknown" 0

/-- `trace_var_double` wrapper. -/
def trace_var_double (s : TracerState) (name valueText : String) : TracerState :=
  trace_var_double_loc s name valueText "unknown" 0

/-- `trace_var_ptr` wrapper. -/
def trace_var_ptr (s : TracerState) (name : String) (value : Nat) : TracerState :=
  trace_var_ptr_loc s name value "unknown" 0

/-- `trace_var_str` wrapper. -/
def trace_var_str (s : TracerState) (name value : String) : TracerState :=
  trace_var_str_loc s name value "unknown" 0

/-- The symbol-name filter of the `__cyg_profile` handlers: compiler-internal
static-initialization symbols are dropped entirely. -/
def isFilteredSymbol (nm : String) : Bool :=
  strContains nm "GLOBAL__sub" ||
  strContains nm "_static_initialization_and_destruction"

/-- The system-library classification used by `__cyg_profile_func_enter`
(`dli_fname` contains `/usr/`, `/lib/`, `libc` or `libstdc++`). -/
def isSystemLibEnter (lib : Option String) : Bool :=
  match lib with
  | some f =>
    strContains f "/usr/" || strContains f "/lib/" ||
    strContains f "libc" || strContains f "libstdc++"
  | none => false

/-- The system-library classification used by `__cyg_profile_func_exit`
(only `/usr/` and `/lib/` are checked there). -/
def isSystemLibExit (lib : Option String) : Bool :=
  match lib with
  | some f => strContains f "/usr/" || strContains f "/lib/"
  | none => false

/-- The recording tail of `__cyg_profile_func_enter` once the symbol has been
resolved and kept: normalize the name, track it, make it current, push a
fresh call frame, and emit the `func_enter` event (whose `func` field is the
unnormalized resolved name, as in the source). -/
def funcEnterRecord (func caller : Nat) (func_name : String) (s : TracerState) :
    TracerState :=
  let fn := normalize_function_name func_name
  let s1 := { s with trackedFunctions := setInsert s.trackedFunctions fn,
                     currentFunction := fn }
  let s2 := { s1 with callStack := CallFrame.mk fn [] [] [] :: s1.callStack }
  write_json_event s2 "func_enter" (some func) func_name s2.depth
    (Payload.callerP caller)

/-- `__cyg_profile_func_enter`: guard; pre-increment the depth and restore it
(dropping the notification) when the ceiling 2048 is reached; resolve the
symbol, dropping static-initialization symbols (restoring the depth) and
renaming system-library symbols to `"user_function"`; then record. -/
def __cyg_profile_func_enter (s : TracerState) (func caller : Nat)
    (sym : Option (String × Option String)) : TracerState :=
  runGuarded s (fun s0 =>
    if s0.depth + 1 ≥ 2048 then s0
    else
      let s1 := { s0 with depth := s0.depth + 1 }
      match sym with
      | some (nm, lib) =>
        if isFilteredSymbol nm then { s1 with depth := s1.depth - 1 }
        else
          funcEnterRecord func caller
            (if isSystemLibEnter lib then "user_function" else nm) s1
      | none => funcEnterRecord func caller "main" s1)

/-- The synthetic-closure loop of `__cyg_profile_func_exit`: pop loop ids from
the back of `activeLoops` (innermost first — the argument is already the
reversed list) and emit one `loop_end` event each, with file `"unknown"` and
line `0`. -/
def emitLoopEndsRev : TracerState → List Int → TracerState
  | s, [] => s
  | s, l :: ls =>
    emitLoopEndsRev
      (write_json_event s "loop_end" none s.currentFunction s.depth
        (Payload.loopEnd l "unknown" 0)) ls

/-- The recording tail of `__cyg_profile_func_exit`: synthetically close the
top frame's active loops and pop the frame (when the stack is non-empty),
restore `currentFunction` from the new top frame (or `"main"`), emit the
`func_exit` event at the pre-decrement depth, then decrement the depth. -/
def funcExitRecord (func : Nat) (func_name : String) (s : TracerState) :
    TracerState :=
  let s1 :=
    match s.callStack with
    | [] => s
    | fr :: rest =>
      let sA := emitLoopEndsRev s fr.activeLoops.reverse
      { sA with callStack := rest }
  let s2 := { s1 with currentFunction :=
                match s1.callStack with
                | fr :: _ => fr.functionName
                | [] => "main" }
  let s3 := write_json_event s2 "func_exit" (some func) func_name s2.depth
    Payload.noneP
  { s3 with depth := s3.depth - 1 }

/-- `__cyg_profile_func_exit`: guard; no-op at depth ≤ 0; drop
static-initialization symbols without popping or decrementing; rename
system-library symbols; then record. -/
def __cyg_profile_func_exit (s : TracerState) (func _caller : Nat)
    (sym : Option (String × Option String)) : TracerState :=
  runGuarded s (fun s0 =>
    if s0.depth ≤ 0 then s0
    else
      match sym with
      | some (nm, lib) =>
        if isFilteredSymbol nm then s0
        else
          funcExitRecord func
            (if isSystemLibExit lib then "user_function" else nm) s0
      | none => funcExitRecord func "main" s0)

/-- The allocation-hook guard shared by `operator new/new[]/delete/delete[]`,
`malloc` and `free`: bail out (forwarding to the real allocator, which is
outside the model) when disabled, reentrant, or at the depth ceiling;
otherwise set the thread-local flag, maybe emit, and clear it.  `ptr` is the
address returned by (or passed to) the real allocator. -/
def allocHook (s : TracerState) (ptr : Nat) (etype hookName : String)
    (extra : Payload) : TracerState :=
  if s.tracerDisabled || s.insideTracer || decide (s.depth ≥ 2048) then s
  else
    let s0 := { s with insideTracer := true }
    let s1 :=
      if ptr ≠ 0 ∧ s0.traceFileOpen ∧ !s0.tracerDisabled then
        write_json_event s0 etype (some ptr) hookName s0.depth extra
      else s0
    { s1 with insideTracer := false }

/-- `operator new`. -/
def operatorNew (s : TracerState) (size ptr : Nat) : TracerState :=
  allocHook s ptr "heap_alloc" "operator new" (Payload.heapAlloc size)

/-- `operator new[]`. -/
def operatorNewArr (s : TracerState) (size ptr : Nat) : TracerState :=
  allocHook s ptr "heap_alloc" "operator new[]" (Payload.heapAlloc size)

/-- `operator delete`. -/
def operatorDelete (s : TracerState) (ptr : Nat) : TracerState :=
  allocHook s ptr "heap_free" "operator delete" Payload.noneP

/-- `operator delete[]`. -/
def operatorDeleteArr (s : TracerState) (ptr : Nat) : TracerState :=
  allocHook s ptr "heap_free" "operator delete[]" Payload.noneP

/-- The interposed `malloc`. -/
def mallocHook (s : TracerState) (size ptr : Nat) : TracerState :=
  allocHook s ptr "heap_alloc" "malloc" (Payload.heapAlloc size)

/-- The interposed `free`. -/
def freeHook (s : TracerState) (ptr : Nat) : TracerState :=
  allocHook s ptr "heap_free" "free" Payload.noneP

/-- `init_tracer` (constructor): no guard; no-op at the depth ceiling; `openOk`
is whether `fopen` of the output path succeeded.  On success the sink is open,
the envelope header is written (file bytes, outside the model) and the
disabled flag is cleared; on failure the tracer is disabled fail-safe. -/
def init_tracer (s : TracerState) (openOk : Bool) : TracerState :=
  if s.depth ≥ 2048 then s
  else if openOk then { s with traceFileOpen := true, tracerDisabled := false }
  else { s with tracerDisabled := true }

/-- `finish_tracer` (destructor): guard; no-op at the depth ceiling or when
the sink is already absent; otherwise set the disabled flag *first*, then
write the trailer (file bytes, outside the model), close the sink and null
the handle. -/
def finish_tracer (s : TracerState) : TracerState :=
  if s.tracerDisabled then s
  else if s.insideTracer then s
  else
    let s0 := { s with insideTracer := true }
    if s0.depth ≥ 2048 then { s0 with insideTracer := false }
    else if !s0.traceFileOpen then { s0 with insideTracer := false }
    else
      let s1 := { s0 with tracerDisabled := true }
      let s2 := { s1 with traceFileOpen := false }
      { s2 with insideTracer := false }

/-- One inbound notification: one constructor per public notification-handling
entry point of the tracer, carrying that handler's arguments (plus, for the
`__cyg_profile` hooks, the externally resolved symbol, and for the allocation
hooks, the address handled by the real allocator). -/
inductive Notification where
  | outputFlush (file : String) (line : Int)
  | conditionEval (conditionId : Int) (expression : String) (result : Int)
      (file : String) (line : Int)
  | branchTaken (conditionId : Int) (branchType file : String) (line : Int)
  | arrayCreate (name baseType : String) (address : Nat) (dim1 dim2 dim3 : Int)
      (isStack : Bool) (file : String) (line : Int)
  | arrayInitString (name str_literal file : String) (line : Int)
  | arrayInit (name : String) (values : List Int) (count : Nat) (file : String)
      (line : Int)
  | arrayIndexAssign (name : String) (idx1 idx2 idx3 value : Int)
      (file : String) (line : Int)
  | pointerAlias (name : String) (aliasedAddress : Nat) (decayedFromArray : Bool)
      (file : String) (line : Int)
  | pointerDerefWrite (ptrName : String) (value : Int) (file : String) (line : Int)
  | declare (name ty : String) (address : Nat) (file : String) (line : Int)
  | assign (name : String) (value : Int) (file : String) (line : Int)
  | pointerHeapInit (ptrName : String) (heapAddr : Nat) (file : String) (line : Int)
  | controlFlow (controlType file : String) (line : Int)
  | loopStart (loopId : Int) (loopType file : String) (line : Int)
  | loopBodyStart (loopId : Int) (file : String) (line : Int)
  | loopIterationEnd (loopId : Int) (file : String) (line : Int)
  | loopEnd (loopId : Int) (file : String) (line : Int)
  | loopCondition (loopId result : Int) (file : String) (line : Int)
  | returnNotif (value : Int) (returnType destinationSymbol file : String)
      (line : Int)
  | blockEnter (blockDepth : Int) (file : String) (line : Int)
  | blockExit (blockDepth : Int) (file : String) (line : Int)
  | varIntLoc (name : String) (value : Int) (file : String) (line : Int)
  | varLongLoc (name : String) (value : Int) (file : String) (line : Int)
  | varDoubleLoc (name valueText file : String) (line : Int)
  | varPtrLoc (name : String) (value : Nat) (file : String) (line : Int)
  | varStrLoc (name value file : String) (line : Int)
  | varIntW (name : String) (value : Int)
  | varLongW (name : String) (value : Int)
  | varDoubleW (name valueText : String)
  | varPtrW (name : String) (value : Nat)
  | varStrW (name value : String)
  | funcEnter (func caller : Nat) (sym : Option (String × Option String))
  | funcExit (func caller : Nat) (sym : Option (String × Option String))
  | opNew (size ptr : Nat)
  | opNewArr (size ptr : Nat)
  | opDelete (ptr : Nat)
  | opDeleteArr (ptr : Nat)
  | mallocCall (size ptr : Nat)
  | freeCall (ptr : Nat)
deriving DecidableEq, Repr

/-- Route one notification to its handler. -/
def dispatch (s : TracerState) : Notification → TracerState
  | .outputFlush file line => __trace_output_flush_loc s file line
  | .conditionEval cid expr res file line =>
    __trace_condition_eval_loc s cid expr res file line
  | .branchTaken cid bt file line => __trace_branch_taken_loc s cid bt file line
  | .arrayCreate name bt address d1 d2 d3 isStack file line =>
    __trace_array_create_loc s name bt address d1 d2 d3 isStack file line
  | .arrayInitString name lit file line =>
    __trace_array_init_string_loc s name lit file line
  | .arrayInit name values count file line =>
    __trace_array_init_loc s name values count file line
  | .arrayIndexAssign name i1 i2 i3 v file line =>
    __trace_array_index_assign_loc s name i1 i2 i3 v file line
  | .pointerAlias name addr dec file line =>
    __trace_pointer_alias_loc s name addr dec file line
  | .pointerDerefWrite p v file line =>
    __trace_pointer_deref_write_loc s p v file line
  | .declare name ty addr file line => __trace_declare_loc s name ty addr file line
  | .assign name v file line => __trace_assign_loc s name v file line
  | .pointerHeapInit p addr file line =>
    __trace_pointer_heap_init_loc s p addr file line
  | .controlFlow ct file line => __trace_control_flow_loc s ct file line
  | .loopStart lid lt file line => __trace_loop_start_loc s lid lt file line
  | .loopBodyStart lid file line => __trace_loop_body_start_loc s lid file line
  | .loopIterationEnd lid file line => __trace_loop_iteration_end_loc s lid file line
  | .loopEnd lid file line => __trace_loop_end_loc s lid file line
  | .loopCondition lid res file line => __trace_loop_condition_loc s lid res file line
  | .returnNotif v rt dest file line => __trace_return_loc s v rt dest file line
  | .blockEnter bd file line => __trace_block_enter_loc s bd file line
  | .blockExit bd file line => __trace_block_exit_loc s bd file line
  | .varIntLoc name v file line => trace_var_int_loc s name v file line
  | .varLongLoc name v file line => trace_var_long_loc s name v file line
  | .varDoubleLoc name vt file line => trace_var_double_loc s name vt file line
  | .varPtrLoc name v file line => trace_var_ptr_loc s name v file line
  | .varStrLoc name v file line => trace_var_str_loc s name v file line
  | .varIntW name v => trace_var_int s name v
  | .varLongW name v => trace_var_long s name v
  | .varDoubleW name vt => trace_var_double s name vt
  | .varPtrW name v => trace_var_ptr s name v
  | .varStrW name v => trace_var_str s name v
  | .funcEnter func caller sym => __cyg_profile_func_enter s func caller sym
  | .funcExit func caller sym => __cyg_profile_func_exit s func caller sym
  | .opNew size ptr => operatorNew s size ptr
  | .opNewArr size ptr => operatorNewArr s size ptr
  | .opDelete ptr => operatorDelete s ptr
  | .opDeleteArr ptr => operatorDeleteArr s ptr
  | .mallocCall size ptr => mallocHook s size ptr
  | .freeCall ptr => freeHook s ptr

/-- Process a sequence of notifications in order. -/
def runTrace (s : TracerState) (ns : List Notification) : TracerState :=
  ns.foldl dispatch s

/-- The state right after a successful `init_tracer` at process start. -/
def postInit : TracerState := init_tracer initState true

/-! ### Basic facts about the recorder and the guard -/

theorem write_json_event_of_closed (s : TracerState) (t : String) (a : Option Nat)
    (f : String) (d : Int) (p : Payload) (h : s.traceFileOpen = false) :
    write_json_event s t a f d p = s := by
  simp [write_json_event, h]

theorem write_json_event_of_open (s : TracerState) (t : String) (a : Option Nat)
    (f : String) (d : Int) (p : Payload) (h1 : s.traceFileOpen = true)
    (h2 : s.depth < 2048) :
    write_json_event s t a f d p =
      { s with
        events := s.events ++ [Event.mk s.eventCounter t a f d p]
        eventCounter := s.eventCounter + 1 } := by
  simp [write_json_event, h1, not_le.mpr h2]

@[simp] theorem write_json_event_traceFileOpen (s : TracerState) (t : String)
    (a : Option Nat) (f : String) (d : Int) (p : Payload) :
    (write_json_event s t a f d p).traceFileOpen = s.traceFileOpen := by
  simp only [write_json_event]; split <;> rfl

@[simp] theorem write_json_event_tracerDisabled (s : TracerState) (t : String)
    (a : Option Nat) (f : String) (d : Int) (p : Payload) :
    (write_json_event s t a f d p).tracerDisabled = s.tracerDisabled := by
  simp only [write_json_event]; split <;> rfl

@[simp] theorem write_json_event_insideTracer (s : TracerState) (t : String)
    (a : Option Nat) (f : String) (d : Int) (p : Payload) :
    (write_json_event s t a f d p).insideTracer = s.insideTracer := by
  simp only [write_json_event]; split <;> rfl

@[simp] theorem write_json_event_depth (s : TracerState) (t : String) (a : Option Nat)
    (f : String) (d : Int) (p : Payload) :
    (write_json_event s t a f d p).depth = s.depth := by
  simp only [write_json_event]; split <;> rfl

@[simp] theorem write_json_event_callStack (s : TracerState) (t : String) (a : Option Nat)
    (f : String) (d : Int) (p : Payload) :
    (write_json_event s t a f d p).callStack = s.callStack := by
  simp only [write_json_event]; split <;> rfl

@[simp] theorem write_json_event_currentFunction (s : TracerState) (t : String)
    (a : Option Nat) (f : String) (d : Int) (p : Payload) :
    (write_json_event s t a f d p).currentFunction = s.currentFunction := by
  simp only [write_json_event]; split <;> rfl

/-- Event ids are well-formed: the log's ids are exactly `0, 1, …,
eventCounter - 1` in order. -/
def EventsOk (s : TracerState) : Prop :=
  s.events.map Event.id = List.range s.eventCounter

theorem EventsOk.write (s : TracerState) (t : String) (a : Option Nat)
    (f : String) (d : Int) (p : Payload) (h : EventsOk s) :
    EventsOk (write_json_event s t a f d p) := by
  simp only [write_json_event]
  split
  · exact h
  · simp only [EventsOk, List.map_append, List.range_succ, List.map_cons,
      List.map_nil] at h ⊢
    rw [h]

theorem runGuarded_of_disabled (s : TracerState) (b : TracerState → TracerState)
    (h : s.tracerDisabled = true) : runGuarded s b = s := by
  simp [runGuarded, h]

theorem runGuarded_of_inside (s : TracerState) (b : TracerState → TracerState)
    (h : s.insideTracer = true) : runGuarded s b = s := by
  simp only [runGuarded, h]
  split <;> rfl

theorem runGuarded_of_denied (s : TracerState) (b : TracerState → TracerState)
    (h : s.tracerDisabled = true ∨ s.insideTracer = true) : runGuarded s b = s := by
  rcases h with h | h
  · exact runGuarded_of_disabled s b h
  · exact runGuarded_of_inside s b h

theorem runGuarded_of_granted (s : TracerState) (b : TracerState → TracerState)
    (h1 : s.tracerDisabled = false) (h2 : s.insideTracer = false) :
    runGuarded s b =
      { b { s with insideTracer := true } with insideTracer := false } := by
  simp [runGuarded, h1, h2]

theorem runGuarded_insideTracer (s : TracerState) (b : TracerState → TracerState)
    (h : s.insideTracer = false) : (runGuarded s b).insideTracer = false := by
  simp only [runGuarded]
  split
  · exact h
  · split
    · exact h
    · rfl

theorem guardedFileOp_of_denied (s : TracerState) (b : TracerState → TracerState)
    (h : s.tracerDisabled = true ∨ s.insideTracer = true) :
    guardedFileOp s b = s :=
  runGuarded_of_denied s _ h

/-- When the sink is absent, every `guardedFileOp`-shaped handler is the
identity (a denied guard returns the state; a granted guard hits the
`!g_trace_file` early return). -/
theorem guardedFileOp_of_closed (s : TracerState) (b : TracerState → TracerState)
    (h : s.traceFileOpen = false) : guardedFileOp s b = s := by
  simp only [guardedFileOp, runGuarded]
  split
  · rfl
  · split
    · rfl
    · simp only [h]
      cases s
      simp_all

theorem guardedFileOp_of_open (s : TracerState) (b : TracerState → TracerState)
    (h1 : s.tracerDisabled = false) (h2 : s.insideTracer = false)
    (h3 : s.traceFileOpen = true) :
    guardedFileOp s b =
      { b { s with insideTracer := true } with insideTracer := false } := by
  simp [guardedFileOp, runGuarded, h1, h2, h3]

/-- Generic preservation of a property through `List.foldl`. -/
theorem foldl_preserves {α : Type} (P : TracerState → Prop)
    (f : TracerState → α → TracerState) (hf : ∀ t x, P t → P (f t x)) :
    ∀ (xs : List α) (s : TracerState), P s → P (List.foldl f s xs) := by
  intro xs
  induction xs with
  | nil => intro s hs; exact hs
  | cons x xs ih => intro s hs; exact ih (f s x) (hf s x hs)

/-- Generic preservation of a projection through `List.foldl`. -/
theorem foldl_fixes {α β : Type} (g : TracerState → β)
    (f : TracerState → α → TracerState) (hf : ∀ t x, g (f t x) = g t) :
    ∀ (xs : List α) (s : TracerState), g (List.foldl f s xs) = g s := by
  intro xs
  induction xs with
  | nil => intro s; rfl
  | cons x xs ih => intro s; rw [List.foldl_cons, ih (f s x), hf s x]

theorem EventsOk_write_iff (s : TracerState) (t : String) (a : Option Nat)
    (f : String) (d : Int) (p : Payload) :
    EventsOk (write_json_event s t a f d p) ↔ EventsOk s := by
  simp only [write_json_event]
  split
  · exact Iff.rfl
  · simp only [EventsOk, List.map_append, List.range_succ, List.map_cons,
      List.map_nil]
    exact List.append_left_inj _

/-! ### A uniform set of facts each notification handler satisfies -/

/-- Facts about a handler body run under the guard: it never touches the
sink, the flags or the depth, and it keeps the event-id invariant. -/
def TameBody (b : TracerState → TracerState) : Prop :=
  ∀ t, (b t).traceFileOpen = t.traceFileOpen ∧
       (b t).tracerDisabled = t.tracerDisabled ∧
       (b t).insideTracer = t.insideTracer ∧
       (b t).depth = t.depth ∧
       (EventsOk t → EventsOk (b t))

/-- Facts about a complete entry point, shared by every handler of the
tracer: the sink state and the disabled flag are never changed by a
notification; the thread-local flag is clear again on return; a disabled
tracer with a closed sink makes the handler a no-op; a closed sink means no
event and no counter change; event ids stay well-formed; the depth counter
stays non-negative. -/
def TameOp (F : TracerState → TracerState) : Prop :=
  ∀ t, (F t).traceFileOpen = t.traceFileOpen ∧
       (F t).tracerDisabled = t.tracerDisabled ∧
       (t.insideTracer = false → (F t).insideTracer = false) ∧
       (t.tracerDisabled = true → t.traceFileOpen = false → F t = t) ∧
       (t.traceFileOpen = false → (F t).events = t.events ∧
         (F t).eventCounter = t.eventCounter) ∧
       (EventsOk t → EventsOk (F t)) ∧
       (0 ≤ t.depth → 0 ≤ (F t).depth)

theorem tame_of_guardedFileOp (b : TracerState → TracerState) (hb : TameBody b) :
    TameOp (fun t => guardedFileOp t b) := by
  intro t
  dsimp only
  by_cases hd : t.tracerDisabled
  · rw [guardedFileOp_of_denied t b (Or.inl hd)]
    simp [hd]
  · by_cases hi : t.insideTracer
    · rw [guardedFileOp_of_denied t b (Or.inr hi)]
      simp [hi]
    · by_cases ho : t.traceFileOpen
      · rw [guardedFileOp_of_open t b (by simp [hd]) (by simp [hi]) ho]
        obtain ⟨h1, h2, h3, h4, h5⟩ := hb { t with insideTracer := true }
        refine ⟨h1, h2, fun _ => rfl, ?_, ?_, ?_, ?_⟩
        · intro hcon; simp [hd] at hcon
        · intro hcon; simp [ho] at hcon
        · intro he
          have := h5 he
          simpa [EventsOk] using this
        · intro hdep; simpa [h4] using hdep
      · rw [guardedFileOp_of_closed t b (by simp [ho])]
        simp

theorem tame_of_runGuarded (b : TracerState → TracerState)
    (h1 : ∀ t, (b t).traceFileOpen = t.traceFileOpen)
    (h2 : ∀ t, (b t).tracerDisabled = t.tracerDisabled)
    (h3 : ∀ t, (b t).insideTracer = t.insideTracer)
    (h4 : ∀ t, EventsOk t → EventsOk (b t))
    (h5 : ∀ t, t.traceFileOpen = false →
      (b t).events = t.events ∧ (b t).eventCounter = t.eventCounter)
    (h6 : ∀ t, 0 ≤ t.depth → 0 ≤ (b t).depth) :
    TameOp (fun t => runGuarded t b) := by
  intro t
  dsimp only
  by_cases hd : t.tracerDisabled
  · rw [runGuarded_of_disabled t b hd]
    simp [hd]
  · by_cases hi : t.insideTracer
    · rw [runGuarded_of_inside t b hi]
      simp [hi]
    · rw [runGuarded_of_granted t b (by simp [hd]) (by simp [hi])]
      set t' : TracerState := { t with insideTracer := true } with ht'
      refine ⟨h1 t', h2 t', fun _ => rfl, ?_, ?_, ?_, ?_⟩
      · intro hcon; simp [hd] at hcon
      · intro hcl
        exact h5 t' hcl
      · intro he
        have := h4 t' he
        simpa [EventsOk] using this
      · intro hdep
        exact h6 t' hdep

theorem arrayInitStringStep_core (name f : String) (line : Int) (s : TracerState)
    (i : Nat) (c : Char) :
    (arrayInitStringStep name f line s i c).traceFileOpen = s.traceFileOpen ∧
    (arrayInitStringStep name f line s i c).tracerDisabled = s.tracerDisabled ∧
    (arrayInitStringStep name f line s i c).insideTracer = s.insideTracer ∧
    (arrayInitStringStep name f line s i c).depth = s.depth ∧
    (EventsOk s → EventsOk (arrayInitStringStep name f line s i c)) := by
  unfold arrayInitStringStep
  refine ⟨?_, ?_, ?_, ?_, ?_⟩
  · simp
  · simp
  · simp
  · simp
  · intro h; exact EventsOk.write _ _ _ _ _ _ h

theorem arrayInitStep_core (name f : String) (line : Int) (values : List Int)
    (s : TracerState) (i : Nat) :
    (arrayInitStep name f line values s i).traceFileOpen = s.traceFileOpen ∧
    (arrayInitStep name f line values s i).tracerDisabled = s.tracerDisabled ∧
    (arrayInitStep name f line values s i).insideTracer = s.insideTracer ∧
    (arrayInitStep name f line values s i).depth = s.depth ∧
    (EventsOk s → EventsOk (arrayInitStep name f line values s i)) := by
  unfold arrayInitStep
  refine ⟨?_, ?_, ?_, ?_, ?_⟩
  · simp
  · simp
  · simp
  · simp
  · intro h; exact EventsOk.write _ _ _ _ _ _ h

theorem emitLoopEndsRev_core (ls : List Int) : ∀ s : TracerState,
    (emitLoopEndsRev s ls).traceFileOpen = s.traceFileOpen ∧
    (emitLoopEndsRev s ls).tracerDisabled = s.tracerDisabled ∧
    (emitLoopEndsRev s ls).insideTracer = s.insideTracer ∧
    (emitLoopEndsRev s ls).depth = s.depth ∧
    (emitLoopEndsRev s ls).callStack = s.callStack ∧
    (emitLoopEndsRev s ls).currentFunction = s.currentFunction ∧
    (EventsOk s → EventsOk (emitLoopEndsRev s ls)) := by
  induction ls with
  | nil => intro s; simp [emitLoopEndsRev]
  | cons l ls ih =>
    intro s
    obtain ⟨i1, i2, i3, i4, i5, i6, i7⟩ :=
      ih (write_json_event s "loop_end" none s.currentFunction s.depth
        (Payload.loopEnd l "unknown" 0))
    refine ⟨?_, ?_, ?_, ?_, ?_, ?_, ?_⟩ <;>
      simp [emitLoopEndsRev, i1, i2, i3, i4, i5, i6]
    intro h
    exact i7 (EventsOk.write _ _ _ _ _ _ h)

theorem emitLoopEndsRev_of_closed (ls : List Int) : ∀ s : TracerState,
    s.traceFileOpen = false → emitLoopEndsRev s ls = s := by
  induction ls with
  | nil => intro s _; rfl
  | cons l ls ih =>
    intro s h
    rw [emitLoopEndsRev, write_json_event_of_closed _ _ _ _ _ _ h, ih s h]

theorem funcEnterRecord_core (func caller : Nat) (nm : String) (s : TracerState) :
    (funcEnterRecord func caller nm s).traceFileOpen = s.traceFileOpen ∧
    (funcEnterRecord func caller nm s).tracerDisabled = s.tracerDisabled ∧
    (funcEnterRecord func caller nm s).insideTracer = s.insideTracer ∧
    (funcEnterRecord func caller nm s).depth = s.depth ∧
    (EventsOk s → EventsOk (funcEnterRecord func caller nm s)) ∧
    (s.traceFileOpen = false → (funcEnterRecord func caller nm s).events = s.events ∧
      (funcEnterRecord func caller nm s).eventCounter = s.eventCounter) := by
  unfold funcEnterRecord
  refine ⟨?_, ?_, ?_, ?_, ?_, ?_⟩
  · simp
  · simp
  · simp
  · simp
  · intro h; exact EventsOk.write _ _ _ _ _ _ h
  · intro h
    constructor <;> simp [write_json_event, h]

theorem funcExitRecord_core (func : Nat) (nm : String) (s : TracerState) :
    (funcExitRecord func nm s).traceFileOpen = s.traceFileOpen ∧
    (funcExitRecord func nm s).tracerDisabled = s.tracerDisabled ∧
    (funcExitRecord func nm s).insideTracer = s.insideTracer ∧
    (funcExitRecord func nm s).depth = s.depth - 1 ∧
    (EventsOk s → EventsOk (funcExitRecord func nm s)) ∧
    (s.traceFileOpen = false → (funcExitRecord func nm s).events = s.events ∧
      (funcExitRecord func nm s).eventCounter = s.eventCounter) := by
  unfold funcExitRecord
  obtain ⟨e1, e2, e3, e4, e5, e6, e7⟩ :=
    emitLoopEndsRev_core
      (match s.callStack with
       | [] => ([] : List Int)
       | fr :: _ => fr.activeLoops.reverse) s
  refine ⟨?_, ?_, ?_, ?_, ?_, ?_⟩
  · cases h : s.callStack <;> simp_all
  · cases h : s.callStack <;> simp_all
  · cases h : s.callStack <;> simp_all
  · cases h : s.callStack <;> simp_all
  · intro he
    cases h : s.callStack with
    | nil =>
      simp only [h]
      exact EventsOk.write _ _ _ _ _ _ he
    | cons fr rest =>
      simp only [h]
      have hrest := (emitLoopEndsRev_core fr.activeLoops.reverse s).2.2.2.2.2.2 he
      have : EventsOk
          ({ emitLoopEndsRev s fr.activeLoops.reverse with callStack := rest }) :=
        hrest
      exact EventsOk.write _ _ _ _ _ _ this
  · intro hcl
    cases h : s.callStack with
    | nil =>
      simp only [h]
      constructor <;> simp [write_json_event, hcl]
    | cons fr rest =>
      simp only [h]
      rw [emitLoopEndsRev_of_closed fr.activeLoops.reverse s hcl]
      constructor <;> simp [write_json_event, hcl]

theorem tame_trace_var_str_loc (name value file : String) (line : Int) :
    TameOp (fun t => trace_var_str_loc t name value file line) := by
  intro t
  dsimp only
  unfold trace_var_str_loc
  by_cases ho : t.traceFileOpen = true
  · rw [if_neg (by simp [ho])]
    refine ⟨by simp, by simp, ?_, ?_, ?_, ?_, by simp⟩
    · intro h; simp [h]
    · intro _ hcon; rw [ho] at hcon; exact absurd hcon (by simp)
    · intro hcon; rw [ho] at hcon; exact absurd hcon (by simp)
    · intro h; exact EventsOk.write _ _ _ _ _ _ h
  · rw [if_pos (by simp [Bool.not_eq_true] at ho ⊢; exact ho)]
    simp

theorem tame_allocHook (ptr : Nat) (ty nm : String) (ex : Payload) :
    TameOp (fun t => allocHook t ptr ty nm ex) := by
  intro t
  dsimp only
  unfold allocHook
  split
  · simp
  · rename_i hg
    refine ⟨?_, ?_, ?_, ?_, ?_, ?_, ?_⟩
    · dsimp only; split <;> simp
    · dsimp only; split <;> simp
    · intro _; rfl
    · intro hd _
      rw [hd] at hg
      simp at hg
    · intro hcl
      dsimp only
      constructor <;> (split <;> simp [write_json_event, hcl])
    · intro he
      dsimp only
      split
      · exact EventsOk.write _ _ _ _ _ _ he
      · exact he
    · intro h; dsimp only; split <;> simpa using h

theorem tame_cyg_enter (func caller : Nat)
    (sym : Option (String × Option String)) :
    TameOp (fun t => __cyg_profile_func_enter t func caller sym) := by
  unfold __cyg_profile_func_enter
  apply tame_of_runGuarded
  · intro t; dsimp only; (repeat' split) <;>
      first
      | rfl
      | simp [(funcEnterRecord_core _ _ _ _).1]
  · intro t; dsimp only; (repeat' split) <;>
      first
      | rfl
      | simp [(funcEnterRecord_core _ _ _ _).2.1]
  · intro t; dsimp only; (repeat' split) <;>
      first
      | rfl
      | simp [(funcEnterRecord_core _ _ _ _).2.2.1]
  · intro t h; dsimp only; (repeat' split) <;>
      first
      | exact h
      | exact (funcEnterRecord_core _ _ _ _).2.2.2.2.1 h
  · intro t hcl
    dsimp only; (repeat' split) <;>
      first
      | exact ⟨rfl, rfl⟩
      | exact (funcEnterRecord_core _ _ _ _).2.2.2.2.2 hcl
  · intro t hd; dsimp only; (repeat' split) <;>
      first
      | exact hd
      | (show (0 : Int) ≤ _; rw [(funcEnterRecord_core _ _ _ _).2.2.2.1]; dsimp only; omega)
      | (dsimp only; omega)

theorem tame_cyg_exit (func caller : Nat)
    (sym : Option (String × Option String)) :
    TameOp (fun t => __cyg_profile_func_exit t func caller sym) := by
  unfold __cyg_profile_func_exit
  apply tame_of_runGuarded
  · intro t; dsimp only; (repeat' split) <;>
      first
      | rfl
      | simp [(funcExitRecord_core _ _ _).1]
  · intro t; dsimp only; (repeat' split) <;>
      first
      | rfl
      | simp [(funcExitRecord_core _ _ _).2.1]
  · intro t; dsimp only; (repeat' split) <;>
      first
      | rfl
      | simp [(funcExitRecord_core _ _ _).2.2.1]
  · intro t h; dsimp only; (repeat' split) <;>
      first
      | exact h
      | exact (funcExitRecord_core _ _ _).2.2.2.2.1 h
  · intro t hcl
    dsimp only; (repeat' split) <;>
      first
      | exact ⟨rfl, rfl⟩
      | exact (funcExitRecord_core _ _ _).2.2.2.2.2 hcl
  · intro t hd
    dsimp only; (repeat' split) <;>
      first
      | exact hd
      | (rename_i hdep; rw [(funcExitRecord_core _ _ _).2.2.2.1]; omega)


/-- Unfolded form of `EventsOk.write`, phrased so `simp` can close event-id
goals that appear after the `EventsOk` definition has been unfolded. -/
theorem write_ids (s : TracerState) (t : String) (a : Option Nat) (f : String)
    (d : Int) (p : Payload)
    (h : List.map Event.id s.events = List.range s.eventCounter) :
    List.map Event.id (write_json_event s t a f d p).events =
      List.range (write_json_event s t a f d p).eventCounter :=
  EventsOk.write s t a f d p h

/-- Every notification handler satisfies the shared guard/recorder facts. -/
theorem tame_dispatch (n : Notification) : TameOp (fun t => dispatch t n) := by
  cases n with
  | outputFlush a0 a1 =>
    simp only [dispatch, __trace_output_flush_loc]
    exact tame_of_runGuarded _ (fun t => rfl) (fun t => rfl) (fun t => rfl)
      (fun t h => h) (fun t _ => ⟨rfl, rfl⟩) (fun t h => h)
  | conditionEval a0 a1 a2 a3 a4 =>
    simp only [dispatch, __trace_condition_eval_loc]
    apply tame_of_guardedFileOp
    intro t
    dsimp only
    refine ⟨?_, ?_, ?_, ?_, ?_⟩ <;> intros <;> (repeat' split) <;>
      (try simp_all [EventsOk_write_iff]) <;> (try simp_all [EventsOk, write_ids])
  | branchTaken a0 a1 a2 a3 =>
    simp only [dispatch, __trace_branch_taken_loc]
    apply tame_of_guardedFileOp
    intro t
    dsimp only
    refine ⟨?_, ?_, ?_, ?_, ?_⟩ <;> intros <;> (repeat' split) <;>
      (try simp_all [EventsOk_write_iff]) <;> (try simp_all [EventsOk, write_ids])
  | arrayCreate a0 a1 a2 a3 a4 a5 a6 a7 a8 =>
    simp only [dispatch, __trace_array_create_loc]
    apply tame_of_guardedFileOp
    intro t
    dsimp only
    refine ⟨?_, ?_, ?_, ?_, ?_⟩ <;> intros <;> (repeat' split) <;>
      (try simp_all [EventsOk_write_iff]) <;> (try simp_all [EventsOk, write_ids])
  | arrayIndexAssign a0 a1 a2 a3 a4 a5 a6 =>
    simp only [dispatch, __trace_array_index_assign_loc]
    apply tame_of_guardedFileOp
    intro t
    dsimp only
    refine ⟨?_, ?_, ?_, ?_, ?_⟩ <;> intros <;> (repeat' split) <;>
      (try simp_all [EventsOk_write_iff]) <;> (try simp_all [EventsOk, write_ids])
  | pointerAlias a0 a1 a2 a3 a4 =>
    simp only [dispatch, __trace_pointer_alias_loc]
    apply tame_of_guardedFileOp
    intro t
    dsimp only
    refine ⟨?_, ?_, ?_, ?_, ?_⟩ <;> intros <;> (repeat' split) <;>
      (try simp_all [EventsOk_write_iff]) <;> (try simp_all [EventsOk, write_ids])
  | pointerDerefWrite a0 a1 a2 a3 =>
    simp only [dispatch, __trace_pointer_deref_write_loc]
    apply tame_of_guardedFileOp
    intro t
    dsimp only
    refine ⟨?_, ?_, ?_, ?_, ?_⟩ <;> intros <;> (repeat' split) <;>
      (try simp_all [EventsOk_write_iff]) <;> (try simp_all [EventsOk, write_ids])
  | declare a0 a1 a2 a3 a4 =>
    simp only [dispatch, __trace_declare_loc]
    apply tame_of_guardedFileOp
    intro t
    dsimp only
    refine ⟨?_, ?_, ?_, ?_, ?_⟩ <;> intros <;> (repeat' split) <;>
      (try simp_all [EventsOk_write_iff]) <;> (try simp_all [EventsOk, write_ids])
  | assign a0 a1 a2 a3 =>
    simp only [dispatch, __trace_assign_loc]
    apply tame_of_guardedFileOp
    intro t
    dsimp only
    refine ⟨?_, ?_, ?_, ?_, ?_⟩ <;> intros <;> (repeat' split) <;>
      (try simp_all [EventsOk_write_iff]) <;> (try simp_all [EventsOk, write_ids])
  | pointerHeapInit a0 a1 a2 a3 =>
    simp only [dispatch, __trace_pointer_heap_init_loc]
    apply tame_of_guardedFileOp
    intro t
    dsimp only
    refine ⟨?_, ?_, ?_, ?_, ?_⟩ <;> intros <;> (repeat' split) <;>
      (try simp_all [EventsOk_write_iff]) <;> (try simp_all [EventsOk, write_ids])
  | controlFlow a0 a1 a2 =>
    simp only [dispatch, __trace_control_flow_loc]
    apply tame_of_guardedFileOp
    intro t
    dsimp only
    refine ⟨?_, ?_, ?_, ?_, ?_⟩ <;> intros <;> (repeat' split) <;>
      (try simp_all [EventsOk_write_iff]) <;> (try simp_all [EventsOk, write_ids])
  | loopStart a0 a1 a2 a3 =>
    simp only [dispatch, __trace_loop_start_loc]
    apply tame_of_guardedFileOp
    intro t
    dsimp only
    refine ⟨?_, ?_, ?_, ?_, ?_⟩ <;> intros <;> (repeat' split) <;>
      (try simp_all [EventsOk_write_iff]) <;> (try simp_all [EventsOk, write_ids])
  | loopBodyStart a0 a1 a2 =>
    simp only [dispatch, __trace_loop_body_start_loc]
    apply tame_of_guardedFileOp
    intro t
    dsimp only
    refine ⟨?_, ?_, ?_, ?_, ?_⟩ <;> intros <;> (repeat' split) <;>
      (try simp_all [EventsOk_write_iff]) <;> (try simp_all [EventsOk, write_ids])
  | loopIterationEnd a0 a1 a2 =>
    simp only [dispatch, __trace_loop_iteration_end_loc]
    apply tame_of_guardedFileOp
    intro t
    dsimp only
    refine ⟨?_, ?_, ?_, ?_, ?_⟩ <;> intros <;> (repeat' split) <;>
      (try simp_all [EventsOk_write_iff]) <;> (try simp_all [EventsOk, write_ids])
  | loopEnd a0 a1 a2 =>
    simp only [dispatch, __trace_loop_end_loc]
    apply tame_of_guardedFileOp
    intro t
    dsimp only
    refine ⟨?_, ?_, ?_, ?_, ?_⟩ <;> intros <;> (repeat' split) <;>
      (try simp_all [EventsOk_write_iff]) <;> (try simp_all [EventsOk, write_ids])
  | loopCondition a0 a1 a2 a3 =>
    simp only [dispatch, __trace_loop_condition_loc]
    apply tame_of_guardedFileOp
    intro t
    dsimp only
    refine ⟨?_, ?_, ?_, ?_, ?_⟩ <;> intros <;> (repeat' split) <;>
      (try simp_all [EventsOk_write_iff]) <;> (try simp_all [EventsOk, write_ids])
  | returnNotif a0 a1 a2 a3 a4 =>
    simp only [dispatch, __trace_return_loc]
    apply tame_of_guardedFileOp
    intro t
    dsimp only
    refine ⟨?_, ?_, ?_, ?_, ?_⟩ <;> intros <;> (repeat' split) <;>
      (try simp_all [EventsOk_write_iff]) <;> (try simp_all [EventsOk, write_ids])
  | blockEnter a0 a1 a2 =>
    simp only [dispatch, __trace_block_enter_loc]
    apply tame_of_guardedFileOp
    intro t
    dsimp only
    refine ⟨?_, ?_, ?_, ?_, ?_⟩ <;> intros <;> (repeat' split) <;>
      (try simp_all [EventsOk_write_iff]) <;> (try simp_all [EventsOk, write_ids])
  | blockExit a0 a1 a2 =>
    simp only [dispatch, __trace_block_exit_loc]
    apply tame_of_guardedFileOp
    intro t
    dsimp only
    refine ⟨?_, ?_, ?_, ?_, ?_⟩ <;> intros <;> (repeat' split) <;>
      (try simp_all [EventsOk_write_iff]) <;> (try simp_all [EventsOk, write_ids])
  | varIntLoc a0 a1 a2 a3 =>
    simp only [dispatch, trace_var_int_loc]
    apply tame_of_guardedFileOp
    intro t
    dsimp only
    refine ⟨?_, ?_, ?_, ?_, ?_⟩ <;> intros <;> (repeat' split) <;>
      (try simp_all [EventsOk_write_iff]) <;> (try simp_all [EventsOk, write_ids])
  | varLongLoc a0 a1 a2 a3 =>
    simp only [dispatch, trace_var_long_loc]
    apply tame_of_guardedFileOp
    intro t
    dsimp only
    refine ⟨?_, ?_, ?_, ?_, ?_⟩ <;> intros <;> (repeat' split) <;>
      (try simp_all [EventsOk_write_iff]) <;> (try simp_all [EventsOk, write_ids])
  | varDoubleLoc a0 a1 a2 a3 =>
    simp only [dispatch, trace_var_double_loc]
    apply tame_of_guardedFileOp
    intro t
    dsimp only
    refine ⟨?_, ?_, ?_, ?_, ?_⟩ <;> intros <;> (repeat' split) <;>
      (try simp_all [EventsOk_write_iff]) <;> (try simp_all [EventsOk, write_ids])
  | varPtrLoc a0 a1 a2 a3 =>
    simp only [dispatch, trace_var_ptr_loc]
    apply tame_of_guardedFileOp
    intro t
    dsimp only
    refine ⟨?_, ?_, ?_, ?_, ?_⟩ <;> intros <;> (repeat' split) <;>
      (try simp_all [EventsOk_write_iff]) <;> (try simp_all [EventsOk, write_ids])
  | arrayInitString a0 a1 a2 a3 =>
    simp only [dispatch, __trace_array_init_string_loc]
    apply tame_of_guardedFileOp
    intro t
    dsimp only
    refine ⟨?_, ?_, ?_, ?_, ?_⟩
    · exact foldl_fixes (fun u => u.traceFileOpen) _
        (fun u (x : Nat × Char) => (arrayInitStringStep_core _ _ _ u x.1 x.2).1) _ t
    · exact foldl_fixes (fun u => u.tracerDisabled) _
        (fun u (x : Nat × Char) => (arrayInitStringStep_core _ _ _ u x.1 x.2).2.1) _ t
    · exact foldl_fixes (fun u => u.insideTracer) _
        (fun u (x : Nat × Char) => (arrayInitStringStep_core _ _ _ u x.1 x.2).2.2.1) _ t
    · exact foldl_fixes (fun u => u.depth) _
        (fun u (x : Nat × Char) => (arrayInitStringStep_core _ _ _ u x.1 x.2).2.2.2.1) _ t
    · exact fun h => foldl_preserves EventsOk _
        (fun u (x : Nat × Char) => (arrayInitStringStep_core _ _ _ u x.1 x.2).2.2.2.2) _ t h
  | arrayInit a0 a1 a2 a3 a4 =>
    simp only [dispatch, __trace_array_init_loc]
    apply tame_of_guardedFileOp
    intro t
    dsimp only
    refine ⟨?_, ?_, ?_, ?_, ?_⟩
    · exact foldl_fixes (fun u => u.traceFileOpen) _
        (fun u (x : Nat) => (arrayInitStep_core _ _ _ _ u x).1) _ t
    · exact foldl_fixes (fun u => u.tracerDisabled) _
        (fun u (x : Nat) => (arrayInitStep_core _ _ _ _ u x).2.1) _ t
    · exact foldl_fixes (fun u => u.insideTracer) _
        (fun u (x : Nat) => (arrayInitStep_core _ _ _ _ u x).2.2.1) _ t
    · exact foldl_fixes (fun u => u.depth) _
        (fun u (x : Nat) => (arrayInitStep_core _ _ _ _ u x).2.2.2.1) _ t
    · exact fun h => foldl_preserves EventsOk _
        (fun u (x : Nat) => (arrayInitStep_core _ _ _ _ u x).2.2.2.2) _ t h
  | varStrLoc a0 a1 a2 a3 =>
    simp only [dispatch]
    exact tame_trace_var_str_loc a0 a1 a2 a3
  | varIntW a0 a1 =>
    simp only [dispatch, trace_var_int, trace_var_int_loc]
    apply tame_of_guardedFileOp
    intro t
    dsimp only
    refine ⟨?_, ?_, ?_, ?_, ?_⟩ <;> intros <;> (repeat' split) <;>
      (try simp_all [EventsOk_write_iff]) <;> (try simp_all [EventsOk, write_ids])
  | varLongW a0 a1 =>
    simp only [dispatch, trace_var_long, trace_var_long_loc]
    apply tame_of_guardedFileOp
    intro t
    dsimp only
    refine ⟨?_, ?_, ?_, ?_, ?_⟩ <;> intros <;> (repeat' split) <;>
      (try simp_all [EventsOk_write_iff]) <;> (try simp_all [EventsOk, write_ids])
  | varDoubleW a0 a1 =>
    simp only [dispatch, trace_var_double, trace_var_double_loc]
    apply tame_of_guardedFileOp
    intro t
    dsimp only
    refine ⟨?_, ?_, ?_, ?_, ?_⟩ <;> intros <;> (repeat' split) <;>
      (try simp_all [EventsOk_write_iff]) <;> (try simp_all [EventsOk, write_ids])
  | varPtrW a0 a1 =>
    simp only [dispatch, trace_var_ptr, trace_var_ptr_loc]
    apply tame_of_guardedFileOp
    intro t
    dsimp only
    refine ⟨?_, ?_, ?_, ?_, ?_⟩ <;> intros <;> (repeat' split) <;>
      (try simp_all [EventsOk_write_iff]) <;> (try simp_all [EventsOk, write_ids])
  | varStrW a0 a1 =>
    simp only [dispatch, trace_var_str]
    exact tame_trace_var_str_loc a0 a1 "unknown" 0
  | funcEnter a0 a1 a2 =>
    simp only [dispatch]
    exact tame_cyg_enter a0 a1 a2
  | funcExit a0 a1 a2 =>
    simp only [dispatch]
    exact tame_cyg_exit a0 a1 a2
  | opNew a0 a1 =>
    simp only [dispatch, operatorNew]
    exact tame_allocHook a1 _ _ _
  | opNewArr a0 a1 =>
    simp only [dispatch, operatorNewArr]
    exact tame_allocHook a1 _ _ _
  | opDelete a0 =>
    simp only [dispatch, operatorDelete]
    exact tame_allocHook a0 _ _ _
  | opDeleteArr a0 =>
    simp only [dispatch, operatorDeleteArr]
    exact tame_allocHook a0 _ _ _
  | mallocCall a0 a1 =>
    simp only [dispatch, mallocHook]
    exact tame_allocHook a1 _ _ _
  | freeCall a0 =>
    simp only [dispatch, freeHook]
    exact tame_allocHook a0 _ _ _

/-! ### Facts about whole runs of notifications -/

theorem runTrace_nil (s : TracerState) : runTrace s [] = s := rfl

theorem runTrace_cons (s : TracerState) (n : Notification) (ns : List Notification) :
    runTrace s (n :: ns) = runTrace (dispatch s n) ns := rfl

theorem runTrace_traceFileOpen (ns : List Notification) : ∀ s : TracerState,
    (runTrace s ns).traceFileOpen = s.traceFileOpen := by
  induction ns with
  | nil => intro s; rfl
  | cons n ns ih =>
    intro s
    rw [runTrace_cons, ih (dispatch s n), (tame_dispatch n s).1]

theorem runTrace_tracerDisabled (ns : List Notification) : ∀ s : TracerState,
    (runTrace s ns).tracerDisabled = s.tracerDisabled := by
  induction ns with
  | nil => intro s; rfl
  | cons n ns ih =>
    intro s
    rw [runTrace_cons, ih (dispatch s n), (tame_dispatch n s).2.1]

theorem runTrace_insideTracer (ns : List Notification) : ∀ s : TracerState,
    s.insideTracer = false → (runTrace s ns).insideTracer = false := by
  induction ns with
  | nil => intro s h; exact h
  | cons n ns ih =>
    intro s h
    rw [runTrace_cons]
    exact ih (dispatch s n) ((tame_dispatch n s).2.2.1 h)

theorem runTrace_noop_when_dead (ns : List Notification) : ∀ s : TracerState,
    s.tracerDisabled = true → s.traceFileOpen = false → runTrace s ns = s := by
  induction ns with
  | nil => intro s _ _; rfl
  | cons n ns ih =>
    intro s hd hc
    have hstep := (tame_dispatch n s).2.2.2.1 hd hc
    dsimp only at hstep
    rw [runTrace_cons, hstep]
    exact ih s hd hc

theorem runTrace_events_closed (ns : List Notification) : ∀ s : TracerState,
    s.traceFileOpen = false → (runTrace s ns).events = s.events ∧
      (runTrace s ns).eventCounter = s.eventCounter := by
  induction ns with
  | nil => intro s _; exact ⟨rfl, rfl⟩
  | cons n ns ih =>
    intro s hc
    rw [runTrace_cons]
    have hstep := (tame_dispatch n s).2.2.2.2.1 hc
    have hc' : (dispatch s n).traceFileOpen = false := by
      rw [(tame_dispatch n s).1]; exact hc
    obtain ⟨e1, e2⟩ := ih (dispatch s n) hc'
    exact ⟨by rw [e1, hstep.1], by rw [e2, hstep.2]⟩

theorem runTrace_EventsOk (ns : List Notification) : ∀ s : TracerState,
    EventsOk s → EventsOk (runTrace s ns) := by
  induction ns with
  | nil => intro s h; exact h
  | cons n ns ih =>
    intro s h
    rw [runTrace_cons]
    exact ih (dispatch s n) ((tame_dispatch n s).2.2.2.2.2.1 h)

theorem runTrace_depth_nonneg (ns : List Notification) : ∀ s : TracerState,
    0 ≤ s.depth → 0 ≤ (runTrace s ns).depth := by
  induction ns with
  | nil => intro s h; exact h
  | cons n ns ih =>
    intro s h
    rw [runTrace_cons]
    exact ih (dispatch s n) ((tame_dispatch n s).2.2.2.2.2.2 h)

/-! ### Guard coverage of the entry points (claim C1) -/

/-- The notification-handling entry points named by claim C1 (`__trace_*_loc`,
`trace_var_*_loc` and wrappers, `__cyg_profile_func_enter/exit`) minus the
unguarded `trace_var_str_loc` / `trace_var_str` pair; the allocation hooks are
outside the claim's scope. -/
def guardedNotification : Notification → Bool
  | .varStrLoc _ _ _ _ => false
  | .varStrW _ _ => false
  | .opNew _ _ => false
  | .opNewArr _ _ => false
  | .opDelete _ => false
  | .opDeleteArr _ => false
  | .mallocCall _ _ => false
  | .freeCall _ => false
  | _ => true

theorem guarded_denied_noop (s : TracerState) (n : Notification)
    (hg : guardedNotification n = true)
    (hden : s.tracerDisabled = true ∨ s.insideTracer = true) :
    dispatch s n = s := by
  cases n <;>
    simp only [dispatch, __trace_output_flush_loc, __trace_condition_eval_loc,
      __trace_branch_taken_loc, __trace_array_create_loc,
      __trace_array_init_string_loc, __trace_array_init_loc,
      __trace_array_index_assign_loc, __trace_pointer_alias_loc,
      __trace_pointer_deref_write_loc, __trace_declare_loc, __trace_assign_loc,
      __trace_pointer_heap_init_loc, __trace_control_flow_loc,
      __trace_loop_start_loc, __trace_loop_body_start_loc,
      __trace_loop_iteration_end_loc, __trace_loop_end_loc,
      __trace_loop_condition_loc, __trace_return_loc, __trace_block_enter_loc,
      __trace_block_exit_loc, trace_var_int_loc, trace_var_long_loc,
      trace_var_double_loc, trace_var_ptr_loc, trace_var_int, trace_var_long,
      trace_var_double, trace_var_ptr, __cyg_profile_func_enter,
      __cyg_profile_func_exit] <;>
    first
    | exact guardedFileOp_of_denied _ _ hden
    | exact runGuarded_of_denied _ _ hden
    | simp [guardedNotification] at hg

/-- Claim C1 (amended): every public notification-handling entry point in the
claim's scope, except `trace_var_str_loc` (and its wrapper `trace_var_str`),
performs the guard check first — returning the state unchanged when the
process-wide disabled flag or the thread-local in-tracer flag is set — and
leaves the thread-local flag clear on every exit path; `trace_var_str_loc`
instead checks only the output sink, returning unchanged when it is absent. -/
theorem C1_guard_amended (s : TracerState) (n : Notification)
    (hg : guardedNotification n = true) :
    ((s.tracerDisabled = true ∨ s.insideTracer = true) → dispatch s n = s) ∧
    (s.insideTracer = false → (dispatch s n).insideTracer = false) ∧
    (∀ (name value file : String) (line : Int), s.traceFileOpen = false →
      trace_var_str_loc s name value file line = s) := by
  refine ⟨guarded_denied_noop s n hg, ?_, ?_⟩
  · intro h
    have := (tame_dispatch n s).2.2.1 h
    dsimp only at this
    exact this
  · intro name value file line h
    simp [trace_var_str_loc, h]

/-- Claim C1 counterexample: with the process-wide disabled flag set (resp.
the thread-local in-tracer flag set) and the sink open, `trace_var_str_loc`
still emits an event — it performs no guard check at all. -/
theorem C1_counterexample :
    ({ postInit with tracerDisabled := true } : TracerState).tracerDisabled = true ∧
    (trace_var_str_loc { postInit with tracerDisabled := true }
      "x" "v" "main.c" 1).eventCounter = 1 ∧
    ({ postInit with insideTracer := true } : TracerState).insideTracer = true ∧
    (trace_var_str_loc { postInit with insideTracer := true }
      "x" "v" "main.c" 1).eventCounter = 1 := by
  refine ⟨rfl, ?_, rfl, ?_⟩ <;> rfl

/-- Witness for C1 (amended) at a concrete denied state and notification. -/
theorem C1_guard_witness :
    dispatch { postInit with tracerDisabled := true }
        (Notification.assign "x" 1 "main.c" 2) =
      { postInit with tracerDisabled := true } ∧
    (dispatch { postInit with tracerDisabled := true }
        (Notification.assign "x" 1 "main.c" 2)).insideTracer = false := by
  have h := C1_guard_amended { postInit with tracerDisabled := true }
    (Notification.assign "x" 1 "main.c" 2) (by decide)
  exact ⟨h.1 (Or.inl rfl), h.2.1 rfl⟩

/-! ### Lifecycle (claims C3, C4) -/

/-- Claim C3: once `finish_tracer` has run on a live tracer, the disabled flag
is set, the sink handle is nulled, and every subsequent notification — of any
kind — is a strict no-op on the tracer state (no reopened sink, no counter
increment, no registry mutation). -/
theorem C3_shutdown_noop (s : TracerState)
    (hd : s.tracerDisabled = false) (hi : s.insideTracer = false)
    (ho : s.traceFileOpen = true) (hdep : s.depth < 2048) :
    (finish_tracer s).tracerDisabled = true ∧
    (finish_tracer s).traceFileOpen = false ∧
    (∀ n : Notification, dispatch (finish_tracer s) n = finish_tracer s) ∧
    (∀ ns : List Notification, runTrace (finish_tracer s) ns = finish_tracer s) := by
  have hfin : finish_tracer s =
      { s with tracerDisabled := true, traceFileOpen := false,
               insideTracer := false } := by
    simp [finish_tracer, hd, hi, ho, not_le.mpr hdep]
  rw [hfin]
  refine ⟨rfl, rfl, ?_, ?_⟩
  · intro n
    have := (tame_dispatch n { s with tracerDisabled := true, traceFileOpen := false, insideTracer := false }).2.2.2.1 rfl rfl
    dsimp only at this
    exact this
  · intro ns
    exact runTrace_noop_when_dead ns _ rfl rfl

/-- Witness for C3 at the state right after a successful start. -/
theorem C3_shutdown_noop_witness :
    (finish_tracer postInit).tracerDisabled = true ∧
    (finish_tracer postInit).traceFileOpen = false ∧
    (∀ n : Notification, dispatch (finish_tracer postInit) n = finish_tracer postInit) ∧
    (∀ ns : List Notification,
      runTrace (finish_tracer postInit) ns = finish_tracer postInit) :=
  C3_shutdown_noop postInit rfl rfl rfl (by decide)

/-- Claim C4 counterexample: before `init_tracer` has run, the disabled flag
is `false` — the C++ static initializer is `g_tracer_disabled = false` — so
"the disabled flag is set" is false of the pre-init state. -/
theorem C4_counterexample : initState.tracerDisabled = false := rfl

/-- Claim C4 (amended): before `init_tracer` runs the disabled flag is clear
(not set), but no notification is ever recorded because the sink is absent;
a failed open sets the disabled flag and leaves tracing permanently disabled
— no later notification records anything or clears the flag — while a
successful open leaves the sink open with the flag clear. -/
theorem C4_disabled_by_default_amended :
    initState.tracerDisabled = false ∧
    initState.traceFileOpen = false ∧
    (∀ ns : List Notification, (runTrace initState ns).events = [] ∧
      (runTrace initState ns).eventCounter = 0) ∧
    (init_tracer initState false).tracerDisabled = true ∧
    (∀ ns : List Notification,
      (runTrace (init_tracer initState false) ns).tracerDisabled = true ∧
      (runTrace (init_tracer initState false) ns).events = []) ∧
    postInit.tracerDisabled = false ∧ postInit.traceFileOpen = true := by
  refine ⟨rfl, rfl, ?_, rfl, ?_, rfl, rfl⟩
  · intro ns
    exact runTrace_events_closed ns initState rfl
  · intro ns
    have hnoop := runTrace_noop_when_dead ns (init_tracer initState false) rfl rfl
    rw [hnoop]
    exact ⟨rfl, rfl⟩

/-! ### Event ids (claim C5) -/

/-- Claim C5: from a freshly started engine (counter `0`, empty log), after
any sequence of notifications the recorded events carry ids `0, 1, 2, …` in
order — exactly `List.range` of the final counter value, with no gaps — and
the counter is bumped only when a record is actually serialized (it equals
the number of recorded events). -/
theorem C5_event_ids_gapless :
    postInit.eventCounter = 0 ∧ postInit.events = [] ∧
    ∀ ns : List Notification,
      (runTrace postInit ns).events.map Event.id =
        List.range ((runTrace postInit ns).eventCounter) ∧
      (runTrace postInit ns).events.length = (runTrace postInit ns).eventCounter := by
  refine ⟨rfl, rfl, ?_⟩
  intro ns
  have h : EventsOk (runTrace postInit ns) := runTrace_EventsOk ns postInit rfl
  refine ⟨h, ?_⟩
  have := congrArg List.length h
  simpa using this

/-! ### Association-list facts -/

theorem assocSet_find_self {α β : Type} [DecidableEq α] (m : List (α × β))
    (k : α) (v : β) : assocFind (assocSet m k v) k = some v := by
  induction m with
  | nil => simp [assocSet, assocFind]
  | cons h rest ih =>
    obtain ⟨k', v'⟩ := h
    by_cases hk : k' = k
    · simp [assocSet, assocFind, hk]
    · simp [assocSet, assocFind, hk, ih]

theorem assocSet_idem {α β : Type} [DecidableEq α] (m : List (α × β))
    (k : α) (v : β) : assocSet (assocSet m k v) k v = assocSet m k v := by
  induction m with
  | nil => simp [assocSet]
  | cons h rest ih =>
    obtain ⟨k', v'⟩ := h
    by_cases hk : k' = k
    · simp [assocSet, hk]
    · simp [assocSet, hk, ih]

theorem findSome?_none_of_all {α β : Type} (f : α → Option β) (l : List α)
    (h : ∀ x ∈ l, f x = none) : l.findSome? f = none := by
  induction l with
  | nil => rfl
  | cons x xs ih =>
    rw [List.findSome?_cons, h x (by simp)]
    exact ih (fun y hy => h y (by simp [hy]))

/-! ### Pointer lookup and shadowing (claim C7) -/

/-- Claim C7: `findPointerInfo` searches call frames innermost-first and only
then the process-wide registry, so an inner frame's alias shadows a global
one; a pointer-deref-write resolves (and stamps its event with) the address
found by that search, both while the shadowing frame is live and after it is
gone. -/
theorem C7_pointer_shadowing (s : TracerState) (p : String) (v : Int)
    (file : String) (line : Int) :
    (∀ fr rest infoB, s.callStack = fr :: rest →
       assocFind fr.pointerAliases p = some infoB →
       findPointerInfo s p = some infoB) ∧
    ((∀ fr ∈ s.callStack, assocFind fr.pointerAliases p = none) →
       findPointerInfo s p = assocFind s.pointerRegistry p) ∧
    (∀ info : PointerInfo, s.tracerDisabled = false → s.insideTracer = false →
       s.traceFileOpen = true → s.depth < 2048 →
       findPointerInfo s p = some info →
       ∃ (e : Event) (rests : List Event),
         (__trace_pointer_deref_write_loc s p v file line).events =
           s.events ++ e :: rests ∧
         e.addr = some info.aliasedAddress ∧
         e.etype = "pointer_deref_write") := by
  refine ⟨?_, ?_, ?_⟩
  · intro fr rest infoB h1 h2
    unfold findPointerInfo
    rw [h1, List.findSome?_cons, h2]
  · intro hall
    unfold findPointerInfo
    rw [findSome?_none_of_all _ _ hall]
  · intro info hd hi ho hdep hfind
    unfold __trace_pointer_deref_write_loc
    rw [guardedFileOp_of_open s _ hd hi ho]
    have hfind' : findPointerInfo { s with insideTracer := true } p = some info :=
      hfind
    have hdep' : ¬(s.depth ≥ 2048) := not_le.mpr hdep
    dsimp only
    rw [hfind']
    dsimp only
    by_cases hheap : info.isHeap = true
    · rw [if_pos hheap]
      refine ⟨Event.mk s.eventCounter "pointer_deref_write"
          (some info.aliasedAddress) s.currentFunction s.depth
          (Payload.pointerDerefWrite p v
            ((assocFind s.addressToName info.aliasedAddress).getD "unknown")
            info.isHeap (json_safe_path file) line),
        [Event.mk (s.eventCounter + 1) "heap_write" (some info.aliasedAddress)
          s.currentFunction s.depth
          (Payload.heapWrite (some info.aliasedAddress) v (json_safe_path file) line)],
        ?_, rfl, rfl⟩
      simp [write_json_event, ho, hdep']
    · rw [if_neg hheap]
      refine ⟨Event.mk s.eventCounter "pointer_deref_write"
          (some info.aliasedAddress) s.currentFunction s.depth
          (Payload.pointerDerefWrite p v
            ((assocFind s.addressToName info.aliasedAddress).getD "unknown")
            info.isHeap (json_safe_path file) line),
        [], ?_, rfl, rfl⟩
      simp [write_json_event, ho, hdep']

/-- Witness for C7: global alias `p→100`, enter `f`, frame alias `p→200`;
lookup (and the deref-write event's target) is `200` while `f` is live, and
`100` again after `f` returned. -/
theorem C7_pointer_shadowing_witness :
    let s1 := __trace_pointer_alias_loc postInit "p" 100 false "m.c" 1
    let s2 := __cyg_profile_func_enter s1 7 0 (some ("f", none))
    let s3 := __trace_pointer_alias_loc s2 "p" 200 false "m.c" 2
    let s4 := __cyg_profile_func_exit s3 7 0 (some ("f", none))
    findPointerInfo s3 "p" = some (PointerInfo.mk "p" 200 false none) ∧
    findPointerInfo s4 "p" = some (PointerInfo.mk "p" 100 false none) ∧
    (∃ (e : Event) (rests : List Event),
      (__trace_pointer_deref_write_loc s3 "p" 5 "m.c" 3).events =
        s3.events ++ e :: rests ∧
      e.addr = some 200 ∧ e.etype = "pointer_deref_write") := by
  intro s1 s2 s3 s4
  refine ⟨?_, ?_, ?_⟩
  · exact (C7_pointer_shadowing s3 "p" 5 "m.c" 3).1
      (CallFrame.mk "f" [("p", PointerInfo.mk "p" 200 false none)] [] []) []
      (PointerInfo.mk "p" 200 false none) (by decide) (by decide)
  · have hstack : s4.callStack = [] := by decide
    have hall : ∀ fr ∈ s4.callStack, assocFind fr.pointerAliases "p" = none := by
      rw [hstack]; intro fr hfr; simp at hfr
    have hglob := (C7_pointer_shadowing s4 "p" 5 "m.c" 3).2.1 hall
    rw [hglob]
    decide
  · exact (C7_pointer_shadowing s3 "p" 5 "m.c" 3).2.2
      (PointerInfo.mk "p" 200 false none) (by decide) (by decide) (by decide)
      (by decide) (by decide)

/-! ### Array element writes (claim C8) -/

/-- Claim C8: on a running engine, writing key `("arr", 2, -1, -1)` to value
`5` twice leaves the latest-value projection holding `5` for that key — the
same projection state as after one write — while appending two distinct
`array_index_assign` events with consecutive, distinct ids. -/
theorem C8_array_write_idempotent (s : TracerState) (file : String) (line : Int)
    (hd : s.tracerDisabled = false) (hi : s.insideTracer = false)
    (ho : s.traceFileOpen = true) (hdep : s.depth < 2048) :
    let t1 := __trace_array_index_assign_loc s "arr" 2 (-1) (-1) 5 file line
    let t2 := __trace_array_index_assign_loc t1 "arr" 2 (-1) (-1) 5 file line
    assocFind t1.arrayElementValues (ArrayElementKey.mk "arr" 2 (-1) (-1)) =
      some 5 ∧
    t2.arrayElementValues = t1.arrayElementValues ∧
    (∃ e1 e2 : Event,
      t1.events = s.events ++ [e1] ∧
      t2.events = s.events ++ [e1, e2] ∧
      e1.etype = "array_index_assign" ∧ e2.etype = "array_index_assign" ∧
      e1.id = s.eventCounter ∧ e2.id = s.eventCounter + 1 ∧ e1.id ≠ e2.id) := by
  intro t1 t2
  have hdep' : ¬(s.depth ≥ 2048) := not_le.mpr hdep
  have ht1 : t1 =
      { s with
        arrayElementValues :=
          assocSet s.arrayElementValues (ArrayElementKey.mk "arr" 2 (-1) (-1)) 5
        events := s.events ++
          [Event.mk s.eventCounter "array_index_assign" none s.currentFunction
            s.depth
            (Payload.arrayIndexAssign "arr" 2 (-1) (-1) 5 (json_safe_path file) line)]
        eventCounter := s.eventCounter + 1 } := by
    show __trace_array_index_assign_loc s "arr" 2 (-1) (-1) 5 file line = _
    unfold __trace_array_index_assign_loc
    rw [guardedFileOp_of_open s _ hd hi ho]
    dsimp only
    simp [write_json_event, ho, hdep', hi]
  have ht2 : t2 =
      { s with
        arrayElementValues :=
          assocSet s.arrayElementValues (ArrayElementKey.mk "arr" 2 (-1) (-1)) 5
        events := s.events ++
          [Event.mk s.eventCounter "array_index_assign" none s.currentFunction
            s.depth
            (Payload.arrayIndexAssign "arr" 2 (-1) (-1) 5 (json_safe_path file) line),
           Event.mk (s.eventCounter + 1) "array_index_assign" none
            s.currentFunction s.depth
            (Payload.arrayIndexAssign "arr" 2 (-1) (-1) 5 (json_safe_path file) line)]
        eventCounter := s.eventCounter + 2 } := by
    show __trace_array_index_assign_loc t1 "arr" 2 (-1) (-1) 5 file line = _
    rw [ht1]
    unfold __trace_array_index_assign_loc
    rw [guardedFileOp_of_open _ _ (by exact hd) (by exact hi) (by exact ho)]
    dsimp only
    simp [write_json_event, ho, hdep', hi, assocSet_idem]
  refine ⟨?_, ?_, ?_⟩
  · rw [ht1]
    exact assocSet_find_self _ _ _
  · rw [ht1, ht2]
  · refine ⟨Event.mk s.eventCounter "array_index_assign" none s.currentFunction
      s.depth
      (Payload.arrayIndexAssign "arr" 2 (-1) (-1) 5 (json_safe_path file) line),
      Event.mk (s.eventCounter + 1) "array_index_assign" none s.currentFunction
      s.depth
      (Payload.arrayIndexAssign "arr" 2 (-1) (-1) 5 (json_safe_path file) line),
      ?_, ?_, rfl, rfl, rfl, rfl, by dsimp only; omega⟩
    · rw [ht1]
    · rw [ht2]

/-- Witness for C8 at the freshly started engine. -/
theorem C8_array_write_idempotent_witness :
    let t1 := __trace_array_index_assign_loc postInit "arr" 2 (-1) (-1) 5 "m.c" 4
    let t2 := __trace_array_index_assign_loc t1 "arr" 2 (-1) (-1) 5 "m.c" 4
    assocFind t1.arrayElementValues (ArrayElementKey.mk "arr" 2 (-1) (-1)) =
      some 5 ∧
    t2.arrayElementValues = t1.arrayElementValues ∧
    (∃ e1 e2 : Event,
      t1.events = postInit.events ++ [e1] ∧
      t2.events = postInit.events ++ [e1, e2] ∧
      e1.etype = "array_index_assign" ∧ e2.etype = "array_index_assign" ∧
      e1.id = postInit.eventCounter ∧ e2.id = postInit.eventCounter + 1 ∧
      e1.id ≠ e2.id) :=
  C8_array_write_idempotent postInit "m.c" 4 rfl rfl rfl (by decide)

/-! ### Heap pointer initialisation (claim C9) -/

/-- Claim C9: a pointer-heap-init accepted on a running engine always stores
`PointerInfo (isHeap = true, aliasedAddress = heapAddress = heapAddr)` in the
process-wide registry, additionally in the innermost frame's alias map when
the call stack is non-empty, and appends no event (counter unchanged). -/
theorem C9_pointer_heap_init (s : TracerState) (p : String) (addr : Nat)
    (file : String) (line : Int)
    (hd : s.tracerDisabled = false) (hi : s.insideTracer = false)
    (ho : s.traceFileOpen = true) :
    assocFind (__trace_pointer_heap_init_loc s p addr file line).pointerRegistry p =
      some (PointerInfo.mk p addr true (some addr)) ∧
    (∀ fr rest, s.callStack = fr :: rest →
      (__trace_pointer_heap_init_loc s p addr file line).callStack =
        { fr with pointerAliases :=
            assocSet fr.pointerAliases p (PointerInfo.mk p addr true (some addr)) }
          :: rest) ∧
    (s.callStack = [] →
      (__trace_pointer_heap_init_loc s p addr file line).callStack = []) ∧
    (__trace_pointer_heap_init_loc s p addr file line).events = s.events ∧
    (__trace_pointer_heap_init_loc s p addr file line).eventCounter =
      s.eventCounter := by
  unfold __trace_pointer_heap_init_loc
  rw [guardedFileOp_of_open s _ hd hi ho]
  dsimp only
  refine ⟨?_, ?_, ?_, ?_, ?_⟩
  · cases hcs : s.callStack <;> simp [hcs, assocSet_find_self]
  · intro fr rest hcs
    simp [hcs]
  · intro hcs
    simp [hcs]
  · cases hcs : s.callStack <;> simp [hcs]
  · cases hcs : s.callStack <;> simp [hcs]

/-- Witness for C9: once with an empty call stack, once inside a frame. -/
theorem C9_pointer_heap_init_witness :
    assocFind (__trace_pointer_heap_init_loc postInit "q" 500 "m.c" 9).pointerRegistry
      "q" = some (PointerInfo.mk "q" 500 true (some 500)) ∧
    (__trace_pointer_heap_init_loc postInit "q" 500 "m.c" 9).events = [] ∧
    (__trace_pointer_heap_init_loc
        (__cyg_profile_func_enter postInit 7 0 (some ("f", none)))
        "q" 500 "m.c" 9).callStack =
      [CallFrame.mk "f" [("q", PointerInfo.mk "q" 500 true (some 500))] [] []] := by
  have h0 := C9_pointer_heap_init postInit "q" 500 "m.c" 9 rfl rfl rfl
  have h1 := C9_pointer_heap_init
    (__cyg_profile_func_enter postInit 7 0 (some ("f", none)))
    "q" 500 "m.c" 9 (by decide) (by decide) (by decide)
  refine ⟨h0.1, ?_, ?_⟩
  · exact h0.2.2.2.1
  · have := h1.2.1 (CallFrame.mk "f" [] [] []) [] (by decide)
    rw [this]
    decide

/-! ### Static-initialization symbols vs system-library symbols (claim C10) -/

theorem normalize_user_function :
    normalize_function_name "user_function" = "user_function" := rfl

/-- Claim C10: a `__cyg_profile` notification whose resolved symbol name
contains `GLOBAL__sub` or `_static_initialization_and_destruction` is dropped
entirely — the enter leaves the state unchanged (depth restored, no frame, no
event) and the matching exit likewise (no pop, no decrement) — whereas a
symbol in a system library is kept under the placeholder `"user_function"`:
the enter pushes a frame named `user_function` and emits a `func_enter` event
carrying that name at depth one deeper. -/
theorem C10_static_init_filtered (s : TracerState) (func caller : Nat)
    (nm : String) (lib : Option String)
    (hd : s.tracerDisabled = false) (hi : s.insideTracer = false)
    (hf : isFilteredSymbol nm = true) :
    __cyg_profile_func_enter s func caller (some (nm, lib)) = s ∧
    __cyg_profile_func_exit s func caller (some (nm, lib)) = s ∧
    (∀ (nm' lib' : String), isFilteredSymbol nm' = false →
      isSystemLibEnter (some lib') = true → s.depth + 1 < 2048 →
      s.traceFileOpen = true →
      (__cyg_profile_func_enter s func caller (some (nm', some lib'))).callStack =
        CallFrame.mk "user_function" [] [] [] :: s.callStack ∧
      ∃ e : Event,
        (__cyg_profile_func_enter s func caller (some (nm', some lib'))).events =
          s.events ++ [e] ∧ e.func = "user_function" ∧ e.etype = "func_enter" ∧
        e.depth = s.depth + 1) := by
  refine ⟨?_, ?_, ?_⟩
  · unfold __cyg_profile_func_enter
    rw [runGuarded_of_granted s _ hd hi]
    dsimp only
    by_cases hdep : s.depth + 1 ≥ 2048
    · rw [if_pos hdep]
      cases s
      simp_all
    · rw [if_neg hdep]
      rw [if_pos (show isFilteredSymbol nm = true from hf)]
      cases s
      simp_all
  · unfold __cyg_profile_func_exit
    rw [runGuarded_of_granted s _ hd hi]
    dsimp only
    by_cases hdep : s.depth ≤ 0
    · rw [if_pos hdep]
      cases s
      simp_all
    · rw [if_neg hdep]
      rw [if_pos (show isFilteredSymbol nm = true from hf)]
      cases s
      simp_all
  · intro nm' lib' hnf hsys hdep ho
    have hdep2 : ¬(s.depth + 1 ≥ 2048) := by omega
    unfold __cyg_profile_func_enter
    rw [runGuarded_of_granted s _ hd hi]
    dsimp only
    rw [if_neg hdep2]
    rw [if_neg (show ¬(isFilteredSymbol nm' = true) by rw [hnf]; simp)]
    rw [if_pos (show isSystemLibEnter (some lib') = true from hsys)]
    unfold funcEnterRecord
    rw [normalize_user_function]
    have hwdep : ¬(s.depth + 1 ≥ 2048) := hdep2
    constructor
    · simp [write_json_event, ho, hwdep]
    · refine ⟨Event.mk s.eventCounter "func_enter" (some func) "user_function"
        (s.depth + 1) (Payload.callerP caller), ?_, rfl, rfl, rfl⟩
      simp [write_json_event, ho, hwdep]

/-- Witness for C10 with a concrete static-initialization symbol and a
concrete `libc` path. -/
theorem C10_static_init_filtered_witness :
    __cyg_profile_func_enter postInit 7 0
        (some ("_GLOBAL__sub_I_main", some "/app/x.so")) = postInit ∧
    __cyg_profile_func_exit postInit 7 0
        (some ("_GLOBAL__sub_I_main", some "/app/x.so")) = postInit ∧
    ((__cyg_profile_func_enter postInit 7 0
        (some ("strlen", some "/usr/lib/libc.so.6"))).callStack =
      CallFrame.mk "user_function" [] [] [] :: postInit.callStack ∧
    ∃ e : Event,
      (__cyg_profile_func_enter postInit 7 0
        (some ("strlen", some "/usr/lib/libc.so.6"))).events =
        postInit.events ++ [e] ∧ e.func = "user_function" ∧
      e.etype = "func_enter" ∧ e.depth = postInit.depth + 1) := by
  have h := C10_static_init_filtered postInit 7 0 "_GLOBAL__sub_I_main"
    (some "/app/x.so") rfl rfl (by decide)
  exact ⟨h.1, h.2.1,
    h.2.2 "strlen" "/usr/lib/libc.so.6" (by decide) (by decide) (by decide) rfl⟩

/-! ### Depth and call-tree bookkeeping (claim C2) -/

/-- A resolved symbol the `__cyg_profile` hooks keep (not a
static-initialization symbol). -/
def symKept : Option (String × Option String) → Bool
  | none => true
  | some (nm, _) => !(isFilteredSymbol nm)

theorem funcEnterRecord_callStack (func caller : Nat) (nm : String)
    (s : TracerState) :
    (funcEnterRecord func caller nm s).callStack =
      CallFrame.mk (normalize_function_name nm) [] [] [] :: s.callStack := by
  unfold funcEnterRecord
  simp

theorem funcExitRecord_callStack (func : Nat) (nm : String) (s : TracerState) :
    (funcExitRecord func nm s).callStack = s.callStack.tail := by
  unfold funcExitRecord
  cases h : s.callStack with
  | nil => simp [h, (emitLoopEndsRev_core _ _).2.2.2.2.1]
  | cons fr rest => simp [h]

/-- One below-ceiling function-enter with a kept symbol: depth goes up by
exactly one and one fresh frame is pushed. -/
theorem enter_step_normal (s : TracerState) (func caller : Nat)
    (sym : Option (String × Option String))
    (hd : s.tracerDisabled = false) (hi : s.insideTracer = false)
    (hkept : symKept sym = true) (hdep : s.depth + 1 < 2048) :
    (__cyg_profile_func_enter s func caller sym).depth = s.depth + 1 ∧
    (__cyg_profile_func_enter s func caller sym).callStack.length =
      s.callStack.length + 1 ∧
    (__cyg_profile_func_enter s func caller sym).tracerDisabled = false ∧
    (__cyg_profile_func_enter s func caller sym).insideTracer = false ∧
    (__cyg_profile_func_enter s func caller sym).traceFileOpen =
      s.traceFileOpen := by
  unfold __cyg_profile_func_enter
  rw [runGuarded_of_granted s _ hd hi]
  dsimp only
  rw [if_neg (show ¬(s.depth + 1 ≥ 2048) from by omega)]
  match sym, hkept with
  | none, _ =>
    dsimp only
    refine ⟨?_, ?_, ?_, ?_, ?_⟩ <;>
      simp [(funcEnterRecord_core _ _ _ _).2.2.2.1,
        funcEnterRecord_callStack, (funcEnterRecord_core _ _ _ _).2.1, hd,
        (funcEnterRecord_core _ _ _ _).1]
  | some (nm, lib), hkept =>
    dsimp only
    rw [if_neg (show ¬(isFilteredSymbol nm = true) from by
      simp [symKept] at hkept; simp [hkept])]
    refine ⟨?_, ?_, ?_, ?_, ?_⟩ <;>
      simp [(funcEnterRecord_core _ _ _ _).2.2.2.1,
        funcEnterRecord_callStack, (funcEnterRecord_core _ _ _ _).2.1, hd,
        (funcEnterRecord_core _ _ _ _).1]

/-- A function-enter at the hard ceiling is dropped completely: the depth is
restored and the state is unchanged. -/
theorem enter_step_ceiling (s : TracerState) (func caller : Nat)
    (sym : Option (String × Option String))
    (hd : s.tracerDisabled = false) (hi : s.insideTracer = false)
    (hdep : s.depth + 1 ≥ 2048) :
    __cyg_profile_func_enter s func caller sym = s := by
  unfold __cyg_profile_func_enter
  rw [runGuarded_of_granted s _ hd hi]
  dsimp only
  rw [if_pos (show ({ s with insideTracer := true } : TracerState).depth + 1 ≥ 2048
    from hdep)]
  cases s
  simp_all

/-- One function-exit with positive depth and a kept symbol: depth goes down
by exactly one and the top frame (when any) is popped. -/
theorem exit_step_normal (s : TracerState) (func caller : Nat)
    (sym : Option (String × Option String))
    (hd : s.tracerDisabled = false) (hi : s.insideTracer = false)
    (hkept : symKept sym = true) (hpos : 0 < s.depth) :
    (__cyg_profile_func_exit s func caller sym).depth = s.depth - 1 ∧
    (__cyg_profile_func_exit s func caller sym).callStack =
      s.callStack.tail := by
  unfold __cyg_profile_func_exit
  rw [runGuarded_of_granted s _ hd hi]
  dsimp only
  rw [if_neg (show ¬(s.depth ≤ 0) from by omega)]
  match sym, hkept with
  | none, _ =>
    dsimp only
    exact ⟨by simp [(funcExitRecord_core _ _ _).2.2.2.1],
      by simp [funcExitRecord_callStack]⟩
  | some (nm, lib), hkept =>
    dsimp only
    rw [if_neg (show ¬(isFilteredSymbol nm = true) from by
      simp [symKept] at hkept; simp [hkept])]
    exact ⟨by simp [(funcExitRecord_core _ _ _).2.2.2.1],
      by simp [funcExitRecord_callStack]⟩

/-- A function-exit at depth ≤ 0 is a strict no-op. -/
theorem exit_step_floor (s : TracerState) (func caller : Nat)
    (sym : Option (String × Option String))
    (hd : s.tracerDisabled = false) (hi : s.insideTracer = false)
    (hfloor : s.depth ≤ 0) :
    __cyg_profile_func_exit s func caller sym = s := by
  unfold __cyg_profile_func_exit
  rw [runGuarded_of_granted s _ hd hi]
  dsimp only
  rw [if_pos (show ({ s with insideTracer := true } : TracerState).depth ≤ 0
    from hfloor)]
  cases s
  simp_all

/-- `k` nested kept function-enters below the ceiling raise the depth and the
stack height by exactly `k`. -/
theorem enter_replicate (k : Nat) : ∀ s : TracerState,
    s.tracerDisabled = false → s.insideTracer = false →
    0 ≤ s.depth → s.depth + k ≤ 2047 →
    (runTrace s (List.replicate k
        (Notification.funcEnter 0 0 (some ("f", none))))).depth = s.depth + k ∧
    (runTrace s (List.replicate k
        (Notification.funcEnter 0 0 (some ("f", none))))).callStack.length =
      s.callStack.length + k ∧
    (runTrace s (List.replicate k
        (Notification.funcEnter 0 0 (some ("f", none))))).tracerDisabled = false ∧
    (runTrace s (List.replicate k
        (Notification.funcEnter 0 0 (some ("f", none))))).insideTracer = false := by
  induction k with
  | zero =>
    intro s hd hi _ _
    simp [runTrace, hd, hi]
  | succ k ih =>
    intro s hd hi hnn hbound
    rw [List.replicate_succ, runTrace_cons]
    have hstep := enter_step_normal s 0 0 (some ("f", none)) hd hi (by decide)
      (by omega)
    obtain ⟨hsd, hsl, hsdis, hsins, _⟩ := hstep
    have hdis : (dispatch s (Notification.funcEnter 0 0 (some ("f", none)))) =
        __cyg_profile_func_enter s 0 0 (some ("f", none)) := rfl
    rw [hdis]
    obtain ⟨r1, r2, r3, r4⟩ := ih (__cyg_profile_func_enter s 0 0 (some ("f", none)))
      hsdis hsins (by omega) (by omega)
    refine ⟨by rw [r1, hsd]; omega, by rw [r2, hsl]; omega, r3, r4⟩

/-- Claim C2 counterexample: drive the tracker to the hard ceiling with 2047
nested enters; the 2048th enter is dropped (state unchanged), but its
matching exit is *not* detected — it pops the parent's frame and decrements
the depth from 2047 to 2046 instead of no-oping. -/
theorem C2_counterexample :
    let s := runTrace postInit (List.replicate 2047
      (Notification.funcEnter 0 0 (some ("f", none))))
    s.depth = 2047 ∧
    __cyg_profile_func_enter s 0 0 (some ("f", none)) = s ∧
    (__cyg_profile_func_exit s 0 0 (some ("f", none))).depth = 2046 ∧
    (__cyg_profile_func_exit s 0 0 (some ("f", none))).callStack.length =
      2046 := by
  intro s
  obtain ⟨r1, r2, r3, r4⟩ := enter_replicate 2047 postInit rfl rfl (by decide)
    (by decide)
  have hd2047 : s.depth = 2047 := by rw [r1]; decide
  have hlen : s.callStack.length = 2047 := by rw [r2]; decide
  refine ⟨hd2047, ?_, ?_, ?_⟩
  · exact enter_step_ceiling s 0 0 (some ("f", none)) r3 r4 (by omega)
  · have := (exit_step_normal s 0 0 (some ("f", none)) r3 r4 (by decide)
      (by omega)).1
    rw [this, hd2047]
    decide
  · have := (exit_step_normal s 0 0 (some ("f", none)) r3 r4 (by decide)
      (by omega)).2
    rw [this, List.length_tail, hlen]

/-- Claim C2 (amended): on a single thread the tracked depth rises by exactly
1 across a kept, below-ceiling function-enter (which pushes one frame) and
falls by exactly 1 across a function-exit taken at positive depth (which pops
the top frame); an exit at depth ≤ 0 is a strict no-op, so the depth never
goes negative over any run.  At the ceiling a function-enter is dropped with
the state unchanged, but its matching function-exit is *not* special-cased:
it behaves like any exit (popping the most recent frame and decrementing the
depth); underflow is prevented only by the depth ≤ 0 check at the outermost
exits. -/
theorem C2_depth_calltree_amended (s : TracerState) (func caller : Nat)
    (sym : Option (String × Option String))
    (hd : s.tracerDisabled = false) (hi : s.insideTracer = false) :
    (symKept sym = true → s.depth + 1 < 2048 →
      (__cyg_profile_func_enter s func caller sym).depth = s.depth + 1 ∧
      (__cyg_profile_func_enter s func caller sym).callStack.length =
        s.callStack.length + 1) ∧
    (s.depth + 1 ≥ 2048 → __cyg_profile_func_enter s func caller sym = s) ∧
    (symKept sym = true → 0 < s.depth →
      (__cyg_profile_func_exit s func caller sym).depth = s.depth - 1 ∧
      (__cyg_profile_func_exit s func caller sym).callStack =
        s.callStack.tail) ∧
    (s.depth ≤ 0 → __cyg_profile_func_exit s func caller sym = s) ∧
    (∀ ns : List Notification, 0 ≤ s.depth → 0 ≤ (runTrace s ns).depth) := by
  refine ⟨?_, ?_, ?_, ?_, ?_⟩
  · intro hkept hdep
    have h := enter_step_normal s func caller sym hd hi hkept hdep
    exact ⟨h.1, h.2.1⟩
  · intro hdep
    exact enter_step_ceiling s func caller sym hd hi hdep
  · intro hkept hpos
    exact exit_step_normal s func caller sym hd hi hkept hpos
  · intro hfloor
    exact exit_step_floor s func caller sym hd hi hfloor
  · intro ns hnn
    exact runTrace_depth_nonneg ns s hnn

/-- Witness for C2 (amended) at the freshly started engine. -/
theorem C2_depth_calltree_witness :
    ((__cyg_profile_func_enter postInit 0 0 (some ("f", none))).depth =
        postInit.depth + 1 ∧
      (__cyg_profile_func_enter postInit 0 0 (some ("f", none))).callStack.length =
        postInit.callStack.length + 1) ∧
    __cyg_profile_func_exit postInit 0 0 (some ("f", none)) = postInit ∧
    0 ≤ (runTrace postInit []).depth := by
  have h := C2_depth_calltree_amended postInit 0 0 (some ("f", none)) rfl rfl
  exact ⟨h.1 (by decide) (by decide), h.2.2.2.1 (by decide),
    h.2.2.2.2 [] (by decide)⟩

/-! ### Loop bookkeeping (claim C6) -/

/-- Is this event a `loop_start` for id `L`? -/
def evIsLS (L : Int) (e : Event) : Bool :=
  match e.extra with
  | Payload.loopStart l _ _ _ => l == L
  | _ => false

/-- Is this event a `loop_end` for id `L` (explicit or synthetic)? -/
def evIsLE (L : Int) (e : Event) : Bool :=
  match e.extra with
  | Payload.loopEnd l _ _ => l == L
  | _ => false

/-- Number of `loop_start` events for id `L` in the log so far. -/
def lsCount (s : TracerState) (L : Int) : Nat := s.events.countP (evIsLS L)

/-- Number of `loop_end` events for id `L` in the log so far. -/
def leCount (s : TracerState) (L : Int) : Nat := s.events.countP (evIsLE L)

/-- Multiplicity of loop id `L` among the innermost frame's `activeLoops`
(zero when the call stack is empty). -/
def topActiveCount (s : TracerState) (L : Int) : Nat :=
  match s.callStack with
  | [] => 0
  | fr :: _ => fr.activeLoops.count L

/-- Notifications that neither push nor pop call frames (everything except
the two `__cyg_profile` hooks). -/
def nonStackNotification : Notification → Bool
  | .funcEnter _ _ _ => false
  | .funcExit _ _ _ => false
  | _ => true

/-- The synthetic `loop_end` records emitted while popping a frame whose
`activeLoops` (given here already reversed, i.e. innermost first) are still
open: one per id, with file `"unknown"`, line `0`, and consecutive ids. -/
def syntheticLoopEnds (c : Nat) (fn : String) (d : Int) : List Int → List Event
  | [] => []
  | l :: ls =>
    Event.mk c "loop_end" none fn d (Payload.loopEnd l "unknown" 0) ::
      syntheticLoopEnds (c + 1) fn d ls

theorem syntheticLoopEnds_counts (L : Int) (fn : String) (d : Int) :
    ∀ (ls : List Int) (c : Nat),
    (syntheticLoopEnds c fn d ls).countP (evIsLE L) = ls.count L ∧
    (syntheticLoopEnds c fn d ls).countP (evIsLS L) = 0 := by
  intro ls
  induction ls with
  | nil => intro c; simp [syntheticLoopEnds]
  | cons l ls ih =>
    intro c
    obtain ⟨i1, i2⟩ := ih (c + 1)
    constructor
    · simp [syntheticLoopEnds, List.countP_cons, i1, evIsLE, List.count_cons]
      try omega
    · simp [syntheticLoopEnds, List.countP_cons, i2, evIsLS]

theorem emitLoopEndsRev_events (ls : List Int) : ∀ s : TracerState,
    s.traceFileOpen = true → s.depth < 2048 →
    (emitLoopEndsRev s ls).events =
      s.events ++ syntheticLoopEnds s.eventCounter s.currentFunction s.depth ls ∧
    (emitLoopEndsRev s ls).eventCounter = s.eventCounter + ls.length := by
  induction ls with
  | nil => intro s _ _; simp [emitLoopEndsRev, syntheticLoopEnds]
  | cons l ls ih =>
    intro s ho hdep
    rw [emitLoopEndsRev]
    rw [write_json_event_of_open _ _ _ _ _ _ ho (by exact hdep)]
    obtain ⟨i1, i2⟩ := ih
      { s with
        events := s.events ++ [Event.mk s.eventCounter "loop_end" none
          s.currentFunction s.depth (Payload.loopEnd l "unknown" 0)]
        eventCounter := s.eventCounter + 1 }
      (by exact ho) (by exact hdep)
    constructor
    · rw [i1]
      simp [syntheticLoopEnds]
    · rw [i2]
      simp
      omega

theorem funcExitRecord_events (func : Nat) (nm : String) (s : TracerState)
    (fr1 : CallFrame) (rest1 : List CallFrame)
    (ho : s.traceFileOpen = true) (hdep : s.depth < 2048)
    (hcs : s.callStack = fr1 :: rest1) :
    (funcExitRecord func nm s).events =
      s.events ++
        syntheticLoopEnds s.eventCounter s.currentFunction s.depth
          fr1.activeLoops.reverse ++
        [Event.mk (s.eventCounter + fr1.activeLoops.length) "func_exit"
          (some func) nm s.depth Payload.noneP] := by
  unfold funcExitRecord
  rw [hcs]
  dsimp only
  obtain ⟨e1, e2⟩ := emitLoopEndsRev_events fr1.activeLoops.reverse s ho hdep
  obtain ⟨c1, c2, c3, c4, c5, c6, _⟩ := emitLoopEndsRev_core fr1.activeLoops.reverse s
  rw [write_json_event_of_open _ _ _ _ _ _ (by exact c1.trans ho)
    (by exact lt_of_eq_of_lt c4 hdep)]
  simp only [e1, e2, c6]
  simp [List.append_assoc, c4]

/-- The `func_exit` processing of a kept symbol at positive depth: the log
grows by the synthetic loop-ends of the popped frame (innermost first)
followed by one `func_exit` record, so the loop-end count for every id `L`
grows by that frame's multiplicity of `L` and the loop-start count is
unchanged. -/
theorem exit_loop_events (s : TracerState) (func caller : Nat)
    (sym : Option (String × Option String)) (fr1 : CallFrame)
    (rest1 : List CallFrame)
    (hd : s.tracerDisabled = false) (hi : s.insideTracer = false)
    (ho : s.traceFileOpen = true) (hdep : s.depth < 2048) (hpos : 0 < s.depth)
    (hkept : symKept sym = true) (hcs : s.callStack = fr1 :: rest1) :
    ∃ e : Event,
      (__cyg_profile_func_exit s func caller sym).events =
        s.events ++
          syntheticLoopEnds s.eventCounter s.currentFunction s.depth
            fr1.activeLoops.reverse ++ [e] ∧
      e.etype = "func_exit" ∧ e.extra = Payload.noneP := by
  unfold __cyg_profile_func_exit
  rw [runGuarded_of_granted s _ hd hi]
  dsimp only
  rw [if_neg (show ¬(s.depth ≤ 0) from by omega)]
  match sym, hkept with
  | none, _ =>
    dsimp only
    refine ⟨Event.mk (s.eventCounter + fr1.activeLoops.length) "func_exit"
        (some func) "main" s.depth Payload.noneP, ?_, rfl, rfl⟩
    rw [funcExitRecord_events func "main" { s with insideTracer := true } fr1
      rest1 (by exact ho) (by exact hdep) (by exact hcs)]
  | some (nm, lib), hkept =>
    dsimp only
    rw [if_neg (show ¬(isFilteredSymbol nm = true) from by
      simp [symKept] at hkept; simp [hkept])]
    refine ⟨Event.mk (s.eventCounter + fr1.activeLoops.length) "func_exit"
        (some func) (if isSystemLibExit lib then "user_function" else nm)
        s.depth Payload.noneP, ?_, rfl, rfl⟩
    rw [funcExitRecord_events func (if isSystemLibExit lib then "user_function" else nm)
      { s with insideTracer := true } fr1 rest1 (by exact ho) (by exact hdep)
      (by exact hcs)]

theorem arrayInitStringStep_loop (name f : String) (line : Int) (s : TracerState)
    (i : Nat) (c : Char) (L : Int) :
    (arrayInitStringStep name f line s i c).callStack = s.callStack ∧
    (arrayInitStringStep name f line s i c).events.countP (evIsLS L) =
      s.events.countP (evIsLS L) ∧
    (arrayInitStringStep name f line s i c).events.countP (evIsLE L) =
      s.events.countP (evIsLE L) := by
  unfold arrayInitStringStep
  refine ⟨by simp, ?_, ?_⟩ <;>
    (simp only [write_json_event]; split <;>
      simp [List.countP_append, List.countP_cons, evIsLS, evIsLE])

theorem arrayInitStep_loop (name f : String) (line : Int) (values : List Int)
    (s : TracerState) (i : Nat) (L : Int) :
    (arrayInitStep name f line values s i).callStack = s.callStack ∧
    (arrayInitStep name f line values s i).events.countP (evIsLS L) =
      s.events.countP (evIsLS L) ∧
    (arrayInitStep name f line values s i).events.countP (evIsLE L) =
      s.events.countP (evIsLE L) := by
  unfold arrayInitStep
  refine ⟨by simp, ?_, ?_⟩ <;>
    (simp only [write_json_event]; split <;>
      simp [List.countP_append, List.countP_cons, evIsLS, evIsLE])

set_option maxHeartbeats 1600000 in
/-- One non-stack notification on a running engine with a live frame keeps
the stack height and depth, and can only improve the loop balance: the
innermost frame's open-loop multiplicity of `L` plus the `loop_end` count
grows at least as fast as the `loop_start` count. -/
theorem loop_step (s : TracerState) (n : Notification) (L : Int)
    (hns : nonStackNotification n = true)
    (hd : s.tracerDisabled = false) (hi : s.insideTracer = false)
    (ho : s.traceFileOpen = true) (hdep : s.depth < 2048)
    (hstack : s.callStack ≠ []) :
    (dispatch s n).callStack.length = s.callStack.length ∧
    (dispatch s n).depth = s.depth ∧
    topActiveCount (dispatch s n) L + leCount (dispatch s n) L + lsCount s L ≥
      topActiveCount s L + leCount s L + lsCount (dispatch s n) L := by
  have hdep2 : ¬(s.depth ≥ 2048) := not_le.mpr hdep
  obtain ⟨fr, rest, hcs⟩ : ∃ fr rest, s.callStack = fr :: rest := by
    cases hc : s.callStack with
    | nil => exact absurd hc hstack
    | cons a b => exact ⟨a, b, rfl⟩
  cases n with
  | funcEnter a0 a1 a2 => simp [nonStackNotification] at hns
  | funcExit a0 a1 a2 => simp [nonStackNotification] at hns
  | outputFlush a0 a1 =>
    simp only [dispatch, __trace_output_flush_loc]
    rw [runGuarded_of_granted s _ hd hi]
    refine ⟨?_, ?_, ?_⟩ <;>
      simp_all [topActiveCount, lsCount, leCount, hcs]
  | conditionEval a0 a1 a2 a3 a4 =>
    simp only [dispatch, __trace_condition_eval_loc]
    rw [guardedFileOp_of_open s _ hd hi ho]
    dsimp only
    refine ⟨?_, ?_, ?_⟩ <;>
      (try simp_all [topActiveCount, lsCount, leCount, write_json_event,
        evIsLS, evIsLE, List.countP_append, List.countP_cons, hcs,
        List.count_append, List.count_cons, List.count_erase]) <;>
      (try split_ifs) <;>
      (try simp [evIsLS, evIsLE, List.countP_cons, List.count_cons,
        List.count_nil, List.count_erase]) <;>
      (try omega)
  | branchTaken a0 a1 a2 a3 =>
    simp only [dispatch, __trace_branch_taken_loc]
    rw [guardedFileOp_of_open s _ hd hi ho]
    dsimp only
    refine ⟨?_, ?_, ?_⟩ <;>
      (try simp_all [topActiveCount, lsCount, leCount, write_json_event,
        evIsLS, evIsLE, List.countP_append, List.countP_cons, hcs,
        List.count_append, List.count_cons, List.count_erase]) <;>
      (try split_ifs) <;>
      (try simp [evIsLS, evIsLE, List.countP_cons, List.count_cons,
        List.count_nil, List.count_erase]) <;>
      (try omega)
  | arrayCreate a0 a1 a2 a3 a4 a5 a6 a7 a8 =>
    simp only [dispatch, __trace_array_create_loc]
    rw [guardedFileOp_of_open s _ hd hi ho]
    dsimp only
    refine ⟨?_, ?_, ?_⟩ <;>
      (try simp_all [topActiveCount, lsCount, leCount, write_json_event,
        evIsLS, evIsLE, List.countP_append, List.countP_cons, hcs,
        List.count_append, List.count_cons, List.count_erase]) <;>
      (try split_ifs) <;>
      (try simp [evIsLS, evIsLE, List.countP_cons, List.count_cons,
        List.count_nil, List.count_erase]) <;>
      (try omega)
  | arrayIndexAssign a0 a1 a2 a3 a4 a5 a6 =>
    simp only [dispatch, __trace_array_index_assign_loc]
    rw [guardedFileOp_of_open s _ hd hi ho]
    dsimp only
    refine ⟨?_, ?_, ?_⟩ <;>
      (try simp_all [topActiveCount, lsCount, leCount, write_json_event,
        evIsLS, evIsLE, List.countP_append, List.countP_cons, hcs,
        List.count_append, List.count_cons, List.count_erase]) <;>
      (try split_ifs) <;>
      (try simp [evIsLS, evIsLE, List.countP_cons, List.count_cons,
        List.count_nil, List.count_erase]) <;>
      (try omega)
  | pointerAlias a0 a1 a2 a3 a4 =>
    simp only [dispatch, __trace_pointer_alias_loc]
    rw [guardedFileOp_of_open s _ hd hi ho]
    dsimp only
    refine ⟨?_, ?_, ?_⟩ <;>
      (try simp_all [topActiveCount, lsCount, leCount, write_json_event,
        evIsLS, evIsLE, List.countP_append, List.countP_cons, hcs,
        List.count_append, List.count_cons, List.count_erase]) <;>
      (try split_ifs) <;>
      (try simp [evIsLS, evIsLE, List.countP_cons, List.count_cons,
        List.count_nil, List.count_erase]) <;>
      (try omega)
  | pointerDerefWrite a0 a1 a2 a3 =>
    simp only [dispatch, __trace_pointer_deref_write_loc]
    rw [guardedFileOp_of_open s _ hd hi ho]
    dsimp only
    refine ⟨?_, ?_, ?_⟩ <;>
      (try simp_all [topActiveCount, lsCount, leCount, write_json_event,
        evIsLS, evIsLE, List.countP_append, List.countP_cons, hcs,
        List.count_append, List.count_cons, List.count_erase]) <;>
      (try split_ifs) <;>
      (try simp [evIsLS, evIsLE, List.countP_cons, List.count_cons,
        List.count_nil, List.count_erase]) <;>
      (try omega)
  | declare a0 a1 a2 a3 a4 =>
    simp only [dispatch, __trace_declare_loc]
    rw [guardedFileOp_of_open s _ hd hi ho]
    dsimp only
    refine ⟨?_, ?_, ?_⟩ <;>
      (try simp_all [topActiveCount, lsCount, leCount, write_json_event,
        evIsLS, evIsLE, List.countP_append, List.countP_cons, hcs,
        List.count_append, List.count_cons, List.count_erase]) <;>
      (try split_ifs) <;>
      (try simp [evIsLS, evIsLE, List.countP_cons, List.count_cons,
        List.count_nil, List.count_erase]) <;>
      (try omega)
  | assign a0 a1 a2 a3 =>
    simp only [dispatch, __trace_assign_loc]
    rw [guardedFileOp_of_open s _ hd hi ho]
    dsimp only
    refine ⟨?_, ?_, ?_⟩ <;>
      (try simp_all [topActiveCount, lsCount, leCount, write_json_event,
        evIsLS, evIsLE, List.countP_append, List.countP_cons, hcs,
        List.count_append, List.count_cons, List.count_erase]) <;>
      (try split_ifs) <;>
      (try simp [evIsLS, evIsLE, List.countP_cons, List.count_cons,
        List.count_nil, List.count_erase]) <;>
      (try omega)
  | pointerHeapInit a0 a1 a2 a3 =>
    simp only [dispatch, __trace_pointer_heap_init_loc]
    rw [guardedFileOp_of_open s _ hd hi ho]
    dsimp only
    refine ⟨?_, ?_, ?_⟩ <;>
      (try simp_all [topActiveCount, lsCount, leCount, write_json_event,
        evIsLS, evIsLE, List.countP_append, List.countP_cons, hcs,
        List.count_append, List.count_cons, List.count_erase]) <;>
      (try split_ifs) <;>
      (try simp [evIsLS, evIsLE, List.countP_cons, List.count_cons,
        List.count_nil, List.count_erase]) <;>
      (try omega)
  | controlFlow a0 a1 a2 =>
    simp only [dispatch, __trace_control_flow_loc]
    rw [guardedFileOp_of_open s _ hd hi ho]
    dsimp only
    refine ⟨?_, ?_, ?_⟩ <;>
      (try simp_all [topActiveCount, lsCount, leCount, write_json_event,
        evIsLS, evIsLE, List.countP_append, List.countP_cons, hcs,
        List.count_append, List.count_cons, List.count_erase]) <;>
      (try split_ifs) <;>
      (try simp [evIsLS, evIsLE, List.countP_cons, List.count_cons,
        List.count_nil, List.count_erase]) <;>
      (try omega)
  | loopStart a0 a1 a2 a3 =>
    simp only [dispatch, __trace_loop_start_loc]
    rw [guardedFileOp_of_open s _ hd hi ho]
    dsimp only
    refine ⟨?_, ?_, ?_⟩ <;>
      (try simp_all [topActiveCount, lsCount, leCount, write_json_event,
        evIsLS, evIsLE, List.countP_append, List.countP_cons, hcs,
        List.count_append, List.count_cons, List.count_erase]) <;>
      (try split_ifs) <;>
      (try simp [evIsLS, evIsLE, List.countP_cons, List.count_cons,
        List.count_nil, List.count_erase]) <;>
      (try omega)
  | loopBodyStart a0 a1 a2 =>
    simp only [dispatch, __trace_loop_body_start_loc]
    rw [guardedFileOp_of_open s _ hd hi ho]
    dsimp only
    refine ⟨?_, ?_, ?_⟩ <;>
      (try simp_all [topActiveCount, lsCount, leCount, write_json_event,
        evIsLS, evIsLE, List.countP_append, List.countP_cons, hcs,
        List.count_append, List.count_cons, List.count_erase]) <;>
      (try split_ifs) <;>
      (try simp [evIsLS, evIsLE, List.countP_cons, List.count_cons,
        List.count_nil, List.count_erase]) <;>
      (try omega)
  | loopIterationEnd a0 a1 a2 =>
    simp only [dispatch, __trace_loop_iteration_end_loc]
    rw [guardedFileOp_of_open s _ hd hi ho]
    dsimp only
    refine ⟨?_, ?_, ?_⟩ <;>
      (try simp_all [topActiveCount, lsCount, leCount, write_json_event,
        evIsLS, evIsLE, List.countP_append, List.countP_cons, hcs,
        List.count_append, List.count_cons, List.count_erase]) <;>
      (try split_ifs) <;>
      (try simp [evIsLS, evIsLE, List.countP_cons, List.count_cons,
        List.count_nil, List.count_erase]) <;>
      (try omega)
  | loopEnd a0 a1 a2 =>
    simp only [dispatch, __trace_loop_end_loc]
    rw [guardedFileOp_of_open s _ hd hi ho]
    dsimp only
    refine ⟨?_, ?_, ?_⟩ <;>
      (try simp_all [topActiveCount, lsCount, leCount, write_json_event,
        evIsLS, evIsLE, List.countP_append, List.countP_cons, hcs,
        List.count_append, List.count_cons, List.count_erase]) <;>
      (try split_ifs) <;>
      (try simp [evIsLS, evIsLE, List.countP_cons, List.count_cons,
        List.count_nil, List.count_erase]) <;>
      (try omega)
  | loopCondition a0 a1 a2 a3 =>
    simp only [dispatch, __trace_loop_condition_loc]
    rw [guardedFileOp_of_open s _ hd hi ho]
    dsimp only
    refine ⟨?_, ?_, ?_⟩ <;>
      (try simp_all [topActiveCount, lsCount, leCount, write_json_event,
        evIsLS, evIsLE, List.countP_append, List.countP_cons, hcs,
        List.count_append, List.count_cons, List.count_erase]) <;>
      (try split_ifs) <;>
      (try simp [evIsLS, evIsLE, List.countP_cons, List.count_cons,
        List.count_nil, List.count_erase]) <;>
      (try omega)
  | returnNotif a0 a1 a2 a3 a4 =>
    simp only [dispatch, __trace_return_loc]
    rw [guardedFileOp_of_open s _ hd hi ho]
    dsimp only
    refine ⟨?_, ?_, ?_⟩ <;>
      (try simp_all [topActiveCount, lsCount, leCount, write_json_event,
        evIsLS, evIsLE, List.countP_append, List.countP_cons, hcs,
        List.count_append, List.count_cons, List.count_erase]) <;>
      (try split_ifs) <;>
      (try simp [evIsLS, evIsLE, List.countP_cons, List.count_cons,
        List.count_nil, List.count_erase]) <;>
      (try omega)
  | blockEnter a0 a1 a2 =>
    simp only [dispatch, __trace_block_enter_loc]
    rw [guardedFileOp_of_open s _ hd hi ho]
    dsimp only
    refine ⟨?_, ?_, ?_⟩ <;>
      (try simp_all [topActiveCount, lsCount, leCount, write_json_event,
        evIsLS, evIsLE, List.countP_append, List.countP_cons, hcs,
        List.count_append, List.count_cons, List.count_erase]) <;>
      (try split_ifs) <;>
      (try simp [evIsLS, evIsLE, List.countP_cons, List.count_cons,
        List.count_nil, List.count_erase]) <;>
      (try omega)
  | blockExit a0 a1 a2 =>
    simp only [dispatch, __trace_block_exit_loc]
    rw [guardedFileOp_of_open s _ hd hi ho]
    dsimp only
    refine ⟨?_, ?_, ?_⟩ <;>
      (try simp_all [topActiveCount, lsCount, leCount, write_json_event,
        evIsLS, evIsLE, List.countP_append, List.countP_cons, hcs,
        List.count_append, List.count_cons, List.count_erase]) <;>
      (try split_ifs) <;>
      (try simp [evIsLS, evIsLE, List.countP_cons, List.count_cons,
        List.count_nil, List.count_erase]) <;>
      (try omega)
  | varIntLoc a0 a1 a2 a3 =>
    simp only [dispatch, trace_var_int_loc]
    rw [guardedFileOp_of_open s _ hd hi ho]
    dsimp only
    refine ⟨?_, ?_, ?_⟩ <;>
      (try simp_all [topActiveCount, lsCount, leCount, write_json_event,
        evIsLS, evIsLE, List.countP_append, List.countP_cons, hcs,
        List.count_append, List.count_cons, List.count_erase]) <;>
      (try split_ifs) <;>
      (try simp [evIsLS, evIsLE, List.countP_cons, List.count_cons,
        List.count_nil, List.count_erase]) <;>
      (try omega)
  | varLongLoc a0 a1 a2 a3 =>
    simp only [dispatch, trace_var_long_loc]
    rw [guardedFileOp_of_open s _ hd hi ho]
    dsimp only
    refine ⟨?_, ?_, ?_⟩ <;>
      (try simp_all [topActiveCount, lsCount, leCount, write_json_event,
        evIsLS, evIsLE, List.countP_append, List.countP_cons, hcs,
        List.count_append, List.count_cons, List.count_erase]) <;>
      (try split_ifs) <;>
      (try simp [evIsLS, evIsLE, List.countP_cons, List.count_cons,
        List.count_nil, List.count_erase]) <;>
      (try omega)
  | varDoubleLoc a0 a1 a2 a3 =>
    simp only [dispatch, trace_var_double_loc]
    rw [guardedFileOp_of_open s _ hd hi ho]
    dsimp only
    refine ⟨?_, ?_, ?_⟩ <;>
      (try simp_all [topActiveCount, lsCount, leCount, write_json_event,
        evIsLS, evIsLE, List.countP_append, List.countP_cons, hcs,
        List.count_append, List.count_cons, List.count_erase]) <;>
      (try split_ifs) <;>
      (try simp [evIsLS, evIsLE, List.countP_cons, List.count_cons,
        List.count_nil, List.count_erase]) <;>
      (try omega)
  | varPtrLoc a0 a1 a2 a3 =>
    simp only [dispatch, trace_var_ptr_loc]
    rw [guardedFileOp_of_open s _ hd hi ho]
    dsimp only
    refine ⟨?_, ?_, ?_⟩ <;>
      (try simp_all [topActiveCount, lsCount, leCount, write_json_event,
        evIsLS, evIsLE, List.countP_append, List.countP_cons, hcs,
        List.count_append, List.count_cons, List.count_erase]) <;>
      (try split_ifs) <;>
      (try simp [evIsLS, evIsLE, List.countP_cons, List.count_cons,
        List.count_nil, List.count_erase]) <;>
      (try omega)
  | varIntW a0 a1 =>
    simp only [dispatch, trace_var_int, trace_var_int_loc]
    rw [guardedFileOp_of_open s _ hd hi ho]
    dsimp only
    refine ⟨?_, ?_, ?_⟩ <;>
      (try simp_all [topActiveCount, lsCount, leCount, write_json_event,
        evIsLS, evIsLE, List.countP_append, List.countP_cons, hcs,
        List.count_append, List.count_cons, List.count_erase]) <;>
      (try split_ifs) <;>
      (try simp [evIsLS, evIsLE, List.countP_cons, List.count_cons,
        List.count_nil, List.count_erase]) <;>
      (try omega)
  | varLongW a0 a1 =>
    simp only [dispatch, trace_var_long, trace_var_long_loc]
    rw [guardedFileOp_of_open s _ hd hi ho]
    dsimp only
    refine ⟨?_, ?_, ?_⟩ <;>
      (try simp_all [topActiveCount, lsCount, leCount, write_json_event,
        evIsLS, evIsLE, List.countP_append, List.countP_cons, hcs,
        List.count_append, List.count_cons, List.count_erase]) <;>
      (try split_ifs) <;>
      (try simp [evIsLS, evIsLE, List.countP_cons, List.count_cons,
        List.count_nil, List.count_erase]) <;>
      (try omega)
  | varDoubleW a0 a1 =>
    simp only [dispatch, trace_var_double, trace_var_double_loc]
    rw [guardedFileOp_of_open s _ hd hi ho]
    dsimp only
    refine ⟨?_, ?_, ?_⟩ <;>
      (try simp_all [topActiveCount, lsCount, leCount, write_json_event,
        evIsLS, evIsLE, List.countP_append, List.countP_cons, hcs,
        List.count_append, List.count_cons, List.count_erase]) <;>
      (try split_ifs) <;>
      (try simp [evIsLS, evIsLE, List.countP_cons, List.count_cons,
        List.count_nil, List.count_erase]) <;>
      (try omega)
  | varPtrW a0 a1 =>
    simp only [dispatch, trace_var_ptr, trace_var_ptr_loc]
    rw [guardedFileOp_of_open s _ hd hi ho]
    dsimp only
    refine ⟨?_, ?_, ?_⟩ <;>
      (try simp_all [topActiveCount, lsCount, leCount, write_json_event,
        evIsLS, evIsLE, List.countP_append, List.countP_cons, hcs,
        List.count_append, List.count_cons, List.count_erase]) <;>
      (try split_ifs) <;>
      (try simp [evIsLS, evIsLE, List.countP_cons, List.count_cons,
        List.count_nil, List.count_erase]) <;>
      (try omega)
  | arrayInitString a0 a1 a2 a3 =>
    simp only [dispatch, __trace_array_init_string_loc]
    rw [guardedFileOp_of_open s _ hd hi ho]
    dsimp only
    have hfix1 := foldl_fixes (fun u => u.callStack)
      (fun acc p => arrayInitStringStep a0 (json_safe_path a2) a3 acc p.1 p.2)
      (fun u (x : Nat × Char) => (arrayInitStringStep_loop a0 (json_safe_path a2) a3 u x.1 x.2 L).1)
      (a1.toList ++ ['\x00']).enum { s with insideTracer := true }
    have hfix2 := foldl_fixes (fun u => u.events.countP (evIsLS L))
      (fun acc p => arrayInitStringStep a0 (json_safe_path a2) a3 acc p.1 p.2)
      (fun u (x : Nat × Char) => (arrayInitStringStep_loop a0 (json_safe_path a2) a3 u x.1 x.2 L).2.1)
      (a1.toList ++ ['\x00']).enum { s with insideTracer := true }
    have hfix3 := foldl_fixes (fun u => u.events.countP (evIsLE L))
      (fun acc p => arrayInitStringStep a0 (json_safe_path a2) a3 acc p.1 p.2)
      (fun u (x : Nat × Char) => (arrayInitStringStep_loop a0 (json_safe_path a2) a3 u x.1 x.2 L).2.2)
      (a1.toList ++ ['\x00']).enum { s with insideTracer := true }
    have hfix4 := foldl_fixes (fun u => u.depth)
      (fun acc p => arrayInitStringStep a0 (json_safe_path a2) a3 acc p.1 p.2)
      (fun u (x : Nat × Char) => (arrayInitStringStep_core a0 (json_safe_path a2) a3 u x.1 x.2).2.2.2.1)
      (a1.toList ++ ['\x00']).enum { s with insideTracer := true }
    refine ⟨?_, ?_, ?_⟩ <;>
      simp_all [topActiveCount, lsCount, leCount, hcs]
  | arrayInit a0 a1 a2 a3 a4 =>
    simp only [dispatch, __trace_array_init_loc]
    rw [guardedFileOp_of_open s _ hd hi ho]
    dsimp only
    have hfix1 := foldl_fixes (fun u => u.callStack)
      (arrayInitStep a0 (json_safe_path a3) a4 a1)
      (fun u (x : Nat) => (arrayInitStep_loop a0 (json_safe_path a3) a4 a1 u x L).1)
      (List.range a2) { s with insideTracer := true }
    have hfix2 := foldl_fixes (fun u => u.events.countP (evIsLS L))
      (arrayInitStep a0 (json_safe_path a3) a4 a1)
      (fun u (x : Nat) => (arrayInitStep_loop a0 (json_safe_path a3) a4 a1 u x L).2.1)
      (List.range a2) { s with insideTracer := true }
    have hfix3 := foldl_fixes (fun u => u.events.countP (evIsLE L))
      (arrayInitStep a0 (json_safe_path a3) a4 a1)
      (fun u (x : Nat) => (arrayInitStep_loop a0 (json_safe_path a3) a4 a1 u x L).2.2)
      (List.range a2) { s with insideTracer := true }
    have hfix4 := foldl_fixes (fun u => u.depth)
      (arrayInitStep a0 (json_safe_path a3) a4 a1)
      (fun u (x : Nat) => (arrayInitStep_core a0 (json_safe_path a3) a4 a1 u x).2.2.2.1)
      (List.range a2) { s with insideTracer := true }
    refine ⟨?_, ?_, ?_⟩ <;>
      simp_all [topActiveCount, lsCount, leCount, hcs]
  | varStrLoc a0 a1 a2 a3 =>
    simp only [dispatch, trace_var_str_loc]
    rw [if_neg (by simp [ho])]
    refine ⟨?_, ?_, ?_⟩ <;>
      (try simp_all [topActiveCount, lsCount, leCount, write_json_event,
        evIsLS, evIsLE, List.countP_append, List.countP_cons, hcs,
        List.count_append, List.count_cons, List.count_erase]) <;>
      (try split_ifs) <;>
      (try simp [evIsLS, evIsLE, List.countP_cons, List.count_cons,
        List.count_nil, List.count_erase]) <;>
      (try omega)
  | varStrW a0 a1 =>
    simp only [dispatch, trace_var_str, trace_var_str_loc]
    rw [if_neg (by simp [ho])]
    refine ⟨?_, ?_, ?_⟩ <;>
      (try simp_all [topActiveCount, lsCount, leCount, write_json_event,
        evIsLS, evIsLE, List.countP_append, List.countP_cons, hcs,
        List.count_append, List.count_cons, List.count_erase]) <;>
      (try split_ifs) <;>
      (try simp [evIsLS, evIsLE, List.countP_cons, List.count_cons,
        List.count_nil, List.count_erase]) <;>
      (try omega)
  | opNew a0 a1 =>
    simp only [dispatch, operatorNew, allocHook]
    rw [if_neg (by simp [hd, hi]; omega)]
    dsimp only
    refine ⟨?_, ?_, ?_⟩ <;>
      (try simp_all [topActiveCount, lsCount, leCount, write_json_event,
        evIsLS, evIsLE, List.countP_append, List.countP_cons, hcs,
        List.count_append, List.count_cons, List.count_erase]) <;>
      (try split_ifs) <;>
      (try simp [evIsLS, evIsLE, List.countP_cons, List.count_cons,
        List.count_nil, List.count_erase]) <;>
      (try omega)
  | opNewArr a0 a1 =>
    simp only [dispatch, operatorNewArr, allocHook]
    rw [if_neg (by simp [hd, hi]; omega)]
    dsimp only
    refine ⟨?_, ?_, ?_⟩ <;>
      (try simp_all [topActiveCount, lsCount, leCount, write_json_event,
        evIsLS, evIsLE, List.countP_append, List.countP_cons, hcs,
        List.count_append, List.count_cons, List.count_erase]) <;>
      (try split_ifs) <;>
      (try simp [evIsLS, evIsLE, List.countP_cons, List.count_cons,
        List.count_nil, List.count_erase]) <;>
      (try omega)
  | opDelete a0 =>
    simp only [dispatch, operatorDelete, allocHook]
    rw [if_neg (by simp [hd, hi]; omega)]
    dsimp only
    refine ⟨?_, ?_, ?_⟩ <;>
      (try simp_all [topActiveCount, lsCount, leCount, write_json_event,
        evIsLS, evIsLE, List.countP_append, List.countP_cons, hcs,
        List.count_append, List.count_cons, List.count_erase]) <;>
      (try split_ifs) <;>
      (try simp [evIsLS, evIsLE, List.countP_cons, List.count_cons,
        List.count_nil, List.count_erase]) <;>
      (try omega)
  | opDeleteArr a0 =>
    simp only [dispatch, operatorDeleteArr, allocHook]
    rw [if_neg (by simp [hd, hi]; omega)]
    dsimp only
    refine ⟨?_, ?_, ?_⟩ <;>
      (try simp_all [topActiveCount, lsCount, leCount, write_json_event,
        evIsLS, evIsLE, List.countP_append, List.countP_cons, hcs,
        List.count_append, List.count_cons, List.count_erase]) <;>
      (try split_ifs) <;>
      (try simp [evIsLS, evIsLE, List.countP_cons, List.count_cons,
        List.count_nil, List.count_erase]) <;>
      (try omega)
  | mallocCall a0 a1 =>
    simp only [dispatch, mallocHook, allocHook]
    rw [if_neg (by simp [hd, hi]; omega)]
    dsimp only
    refine ⟨?_, ?_, ?_⟩ <;>
      (try simp_all [topActiveCount, lsCount, leCount, write_json_event,
        evIsLS, evIsLE, List.countP_append, List.countP_cons, hcs,
        List.count_append, List.count_cons, List.count_erase]) <;>
      (try split_ifs) <;>
      (try simp [evIsLS, evIsLE, List.countP_cons, List.count_cons,
        List.count_nil, List.count_erase]) <;>
      (try omega)
  | freeCall a0 =>
    simp only [dispatch, freeHook, allocHook]
    rw [if_neg (by simp [hd, hi]; omega)]
    dsimp only
    refine ⟨?_, ?_, ?_⟩ <;>
      (try simp_all [topActiveCount, lsCount, leCount, write_json_event,
        evIsLS, evIsLE, List.countP_append, List.countP_cons, hcs,
        List.count_append, List.count_cons, List.count_erase]) <;>
      (try split_ifs) <;>
      (try simp [evIsLS, evIsLE, List.countP_cons, List.count_cons,
        List.count_nil, List.count_erase]) <;>
      (try omega)

/-- The loop-balance invariant over a whole run of non-stack notifications on
a running engine with a live frame. -/
theorem loop_run (ns : List Notification) (L : Int) : ∀ s : TracerState,
    (∀ n ∈ ns, nonStackNotification n = true) →
    s.tracerDisabled = false → s.insideTracer = false →
    s.traceFileOpen = true → s.depth < 2048 → s.callStack ≠ [] →
    (runTrace s ns).tracerDisabled = false ∧
    (runTrace s ns).insideTracer = false ∧
    (runTrace s ns).traceFileOpen = true ∧
    (runTrace s ns).depth = s.depth ∧
    (runTrace s ns).callStack.length = s.callStack.length ∧
    topActiveCount (runTrace s ns) L + leCount (runTrace s ns) L + lsCount s L ≥
      topActiveCount s L + leCount s L + lsCount (runTrace s ns) L := by
  induction ns with
  | nil =>
    intro s _ hd hi ho _ _
    exact ⟨hd, hi, ho, rfl, rfl, le_refl _⟩
  | cons n ns ih =>
    intro s hall hd hi ho hdep hstack
    rw [runTrace_cons]
    have hns : nonStackNotification n = true := hall n (by simp)
    obtain ⟨l1, l2, l3⟩ := loop_step s n L hns hd hi ho hdep hstack
    have t := tame_dispatch n s
    have hd' : (dispatch s n).tracerDisabled = false := by
      have h := t.2.1; dsimp only at h; rw [h]; exact hd
    have hi' : (dispatch s n).insideTracer = false := by
      have h := t.2.2.1 hi; dsimp only at h; exact h
    have ho' : (dispatch s n).traceFileOpen = true := by
      have h := t.1; dsimp only at h; rw [h]; exact ho
    have hstack' : (dispatch s n).callStack ≠ [] := by
      intro hc
      rw [hc] at l1
      cases hcs : s.callStack with
      | nil => exact hstack hcs
      | cons a b => rw [hcs] at l1; simp at l1
    obtain ⟨r1, r2, r3, r4, r5, r6⟩ := ih (dispatch s n)
      (fun m hm => hall m (by simp [hm])) hd' hi' ho' (by rw [l2]; exact hdep)
      hstack'
    refine ⟨r1, r2, r3, by rw [r4, l2], by rw [r5, l1], ?_⟩
    omega

/-- Claim C6: for a function activation begun with a fresh frame, after any
sequence of non-stack notifications inside it, the function-exit
synthetically closes the still-open loops (one `loop_end` per open id,
innermost first — the reverse of the frame's `activeLoops` — with
consecutive ids) before the frame is popped and the `func_exit` record is
written; consequently, by the time the `func_exit` record is emitted, every
`loop_start` for id `L` recorded during the activation has a matching
`loop_end` for `L` in the event stream. -/
theorem C6_loop_closure (s : TracerState) (fr : CallFrame)
    (rest : List CallFrame) (ns : List Notification) (L : Int)
    (func caller : Nat) (sym : Option (String × Option String))
    (h1 : s.tracerDisabled = false) (h2 : s.insideTracer = false)
    (h3 : s.traceFileOpen = true) (h4 : s.depth < 2048) (h5 : 0 < s.depth)
    (h6 : s.callStack = fr :: rest) (h7 : fr.activeLoops = [])
    (h8 : ∀ n ∈ ns, nonStackNotification n = true) (h9 : symKept sym = true) :
    leCount (__cyg_profile_func_exit (runTrace s ns) func caller sym) L +
        lsCount s L ≥
      lsCount (__cyg_profile_func_exit (runTrace s ns) func caller sym) L +
        leCount s L ∧
    (∃ (fr1 : CallFrame) (rest1 : List CallFrame) (e : Event),
      (runTrace s ns).callStack = fr1 :: rest1 ∧
      (__cyg_profile_func_exit (runTrace s ns) func caller sym).events =
        (runTrace s ns).events ++
          syntheticLoopEnds (runTrace s ns).eventCounter
            (runTrace s ns).currentFunction (runTrace s ns).depth
            fr1.activeLoops.reverse ++ [e] ∧
      e.etype = "func_exit") := by
  have hstack : s.callStack ≠ [] := by rw [h6]; simp
  obtain ⟨r1, r2, r3, r4, r5, r6⟩ := loop_run ns L s h8 h1 h2 h3 h4 hstack
  obtain ⟨fr1, rest1, hcs1⟩ :
      ∃ fr1 rest1, (runTrace s ns).callStack = fr1 :: rest1 := by
    cases hc : (runTrace s ns).callStack with
    | nil => rw [hc, h6] at r5; simp at r5
    | cons a b => exact ⟨a, b, rfl⟩
  obtain ⟨e, he1, he2, he3⟩ := exit_loop_events (runTrace s ns) func caller sym
    fr1 rest1 r1 r2 r3 (by rw [r4]; exact h4) (by rw [r4]; exact h5) h9 hcs1
  constructor
  · have hls2 : lsCount (__cyg_profile_func_exit (runTrace s ns) func caller sym) L =
        lsCount (runTrace s ns) L := by
      unfold lsCount
      rw [he1]
      simp [List.countP_append, List.countP_cons,
        (syntheticLoopEnds_counts L _ _ _ _).2, evIsLS, he3]
    have hle2 : leCount (__cyg_profile_func_exit (runTrace s ns) func caller sym) L =
        leCount (runTrace s ns) L + fr1.activeLoops.count L := by
      unfold leCount
      rw [he1]
      simp [List.countP_append, List.countP_cons,
        (syntheticLoopEnds_counts L _ _ _ _).1, evIsLE, he3,
        List.count_reverse]
    have htop1 : topActiveCount (runTrace s ns) L = fr1.activeLoops.count L := by
      simp [topActiveCount, hcs1]
    have htop0 : topActiveCount s L = 0 := by
      simp [topActiveCount, h6, h7]
    omega
  · exact ⟨fr1, rest1, e, hcs1, he1, he2⟩

/-- Witness for C6: enter `f`, open loop `1` (never explicitly closed), run a
loop-body notification, then exit `f`; the exit closes loop `1`
synthetically before the `func_exit` record. -/
theorem C6_loop_closure_witness :
    let sE := __cyg_profile_func_enter postInit 7 0 (some ("f", none))
    let ns : List Notification :=
      [Notification.loopStart 1 "for" "m.c" 2,
       Notification.loopBodyStart 1 "m.c" 3]
    leCount (__cyg_profile_func_exit (runTrace sE ns) 7 0 (some ("f", none))) 1 +
        lsCount sE 1 ≥
      lsCount (__cyg_profile_func_exit (runTrace sE ns) 7 0 (some ("f", none))) 1 +
        leCount sE 1 ∧
    (∃ (fr1 : CallFrame) (rest1 : List CallFrame) (e : Event),
      (runTrace sE ns).callStack = fr1 :: rest1 ∧
      (__cyg_profile_func_exit (runTrace sE ns) 7 0 (some ("f", none))).events =
        (runTrace sE ns).events ++
          syntheticLoopEnds (runTrace sE ns).eventCounter
            (runTrace sE ns).currentFunction (runTrace sE ns).depth
            fr1.activeLoops.reverse ++ [e] ∧
      e.etype = "func_exit") := by
  intro sE ns
  exact C6_loop_closure sE (CallFrame.mk "f" [] [] []) [] ns 1 7 0
    (some ("f", none)) (by decide) (by decide) (by decide) (by decide)
    (by decide) (by decide) rfl (by decide) (by decide)
